import Mathlib

/-!
# openshift-sdn, `ovs-simple/controller`: a shallow embedding

The controller of `ovs-simple/controller/controller.go` is embedded as pure
functions over an explicit world state.  Every call that leaves the
controller (registry, subnet allocator, resolver, external commands, sleeps,
goroutine starts) is appended to a trace, so that "which calls were made, in
which order, with which arguments" is a statement about a list.

The collaborators whose code is outside the controller (the registry
behind `registry.SubnetRegistry`, `netutils.SubnetAllocator`, `net`,
`os/exec`) are fields of a record `Env`; a theorem that quantifies over `Env`
holds for every implementation of them.
-/

namespace OvsSimple

/-! ## Standard-library functions used by `generateCookie` -/

/-- UTF-8 encoding of one character, as the bytes a Go string holds. -/
def utf8EncodeChar (c : Char) : List Nat :=
  let v := c.val.toNat
  if v ≤ 0x7f then [v]
  else if v ≤ 0x7ff then [0xc0 + v / 64, 0x80 + v % 64]
  else if v ≤ 0xffff then [0xe0 + v / 4096, 0x80 + (v / 64) % 64, 0x80 + v % 64]
  else [0xf0 + v / 262144, 0x80 + (v / 4096) % 64, 0x80 + (v / 64) % 64, 0x80 + v % 64]

/-- The conversion `[]byte(s)`. -/
def stringBytes (s : String) : List Nat :=
  s.data.flatMap utf8EncodeChar

namespace MD5

/-- Per-round left-rotation amounts (RFC 1321). -/
def shifts : List Nat :=
  [7, 12, 17, 22, 7, 12, 17, 22, 7, 12, 17, 22, 7, 12, 17, 22,
   5, 9, 14, 20, 5, 9, 14, 20, 5, 9, 14, 20, 5, 9, 14, 20,
   4, 11, 16, 23, 4, 11, 16, 23, 4, 11, 16, 23, 4, 11, 16, 23,
   6, 10, 15, 21, 6, 10, 15, 21, 6, 10, 15, 21, 6, 10, 15, 21]

/-- The sine-derived additive constants (RFC 1321). -/
def sines : List Nat :=
  [0xd76aa478, 0xe8c7b756, 0x242070db, 0xc1bdceee,
   0xf57c0faf, 0x4787c62a, 0xa8304613, 0xfd469501,
   0x698098d8, 0x8b44f7af, 0xffff5bb1, 0x895cd7be,
   0x6b901122, 0xfd987193, 0xa679438e, 0x49b40821,
   0xf61e2562, 0xc040b340, 0x265e5a51, 0xe9b6c7aa,
   0xd62f105d, 0x02441453, 0xd8a1e681, 0xe7d3fbc8,
   0x21e1cde6, 0xc33707d6, 0xf4d50d87, 0x455a14ed,
   0xa9e3e905, 0xfcefa3f8, 0x676f02d9, 0x8d2a4c8a,
   0xfffa3942, 0x8771f681, 0x6d9d6122, 0xfde5380c,
   0xa4beea44, 0x4bdecfa9, 0xf6bb4b60, 0xbebfbc70,
   0x289b7ec6, 0xeaa127fa, 0xd4ef3085, 0x04881d05,
   0xd9d4d039, 0xe6db99e5, 0x1fa27cf8, 0xc4ac5665,
   0xf4292244, 0x432aff97, 0xab9423a7, 0xfc93a039,
   0x655b59c3, 0x8f0ccc92, 0xffeff47d, 0x85845dd1,
   0x6fa87e4f, 0xfe2ce6e0, 0xa3014314, 0x4e0811a1,
   0xf7537e82, 0xbd3af235, 0x2ad7d2bb, 0xeb86d391]

/-- Reduction to an unsigned 32-bit word. -/
def w32 (x : Nat) : Nat := x % 2 ^ 32

/-- Bitwise complement of a 32-bit word. -/
def not32 (x : Nat) : Nat := Nat.xor (w32 x) 0xffffffff

/-- Left rotation of a 32-bit word. -/
def rotl (x s : Nat) : Nat :=
  w32 (Nat.lor (Nat.shiftLeft (w32 x) s) (Nat.shiftRight (w32 x) (32 - s)))

/-- The four little-endian bytes of a 32-bit word. -/
def le32 (x : Nat) : List Nat :=
  [x % 256, (x / 256) % 256, (x / 65536) % 256, (x / 16777216) % 256]

/-- The message followed by the `0x80` marker, zero fill up to 56 modulo 64,
and the bit length as a little-endian 64-bit integer. -/
def pad (msg : List Nat) : List Nat :=
  let n := msg.length
  let zeros := (119 - n % 64) % 64
  let bits := (8 * n) % 2 ^ 64
  msg ++ [0x80] ++ List.replicate zeros 0 ++ le32 (bits % 2 ^ 32) ++ le32 (bits / 2 ^ 32)

/-- Little-endian decoding of up to four bytes. -/
def word (bs : List Nat) : Nat :=
  bs.foldr (fun b acc => b + 256 * acc) 0

/-- Split a byte list into consecutive groups of `k` bytes; the fuel bounds
the number of groups. -/
def chunks (k : Nat) : Nat → List Nat → List (List Nat)
  | 0, _ => []
  | _ + 1, [] => []
  | fuel + 1, b :: bs => (b :: bs).take k :: chunks k fuel ((b :: bs).drop k)

/-- The chaining state `(a, b, c, d)`. -/
structure Digest where
  a : Nat
  b : Nat
  c : Nat
  d : Nat

/-- One of the 64 steps applied to the working state, for message words `m`. -/
def step (m : List Nat) (st : Digest) (i : Nat) : Digest :=
  let f :=
    if i < 16 then Nat.lor (Nat.land st.b st.c) (Nat.land (not32 st.b) st.d)
    else if i < 32 then Nat.lor (Nat.land st.d st.b) (Nat.land (not32 st.d) st.c)
    else if i < 48 then Nat.xor (Nat.xor st.b st.c) st.d
    else Nat.xor st.c (Nat.lor st.b (not32 st.d))
  let g :=
    if i < 16 then i
    else if i < 32 then (5 * i + 1) % 16
    else if i < 48 then (3 * i + 5) % 16
    else (7 * i) % 16
  let t := w32 (f + st.a + sines.getD i 0 + m.getD g 0)
  { a := st.d, d := st.c, c := st.b, b := w32 (st.b + rotl t (shifts.getD i 0)) }

/-- Absorb one 64-byte block into the chaining state. -/
def block (st : Digest) (blk : List Nat) : Digest :=
  let m := (chunks 4 16 blk).map word
  let r := (List.range 64).foldl (step m) st
  { a := w32 (st.a + r.a), b := w32 (st.b + r.b), c := w32 (st.c + r.c), d := w32 (st.d + r.d) }

/-- The initial chaining state. -/
def init : Digest :=
  { a := 0x67452301, b := 0xefcdab89, c := 0x98badcfe, d := 0x10325476 }

/-- The function `md5.Sum`: the 16-byte digest of a byte string. -/
def Sum (msg : List Nat) : List Nat :=
  let p := pad msg
  let r := (chunks 64 (p.length / 64 + 1) p).foldl block init
  le32 r.a ++ le32 r.b ++ le32 r.c ++ le32 r.d

end MD5

/-- The digit alphabet of `strconv`. -/
def digits : List Char := "0123456789abcdefghijklmnopqrstuvwxyz".data

/-- The digit loop of `strconv.formatBits`: the digits of `u` in `base`, most
significant first.  A 64-bit value has at most 64 digits, which bounds the
recursion. -/
def formatBits : Nat → Nat → Nat → List Char → List Char
  | 0, _, _, acc => acc
  | fuel + 1, u, base, acc =>
    if u < base then digits.getD u '0' :: acc
    else formatBits fuel (u / base) base (digits.getD (u % base) '0' :: acc)

/-- The function `strconv.FormatInt(i, base)` for `2 ≤ base ≤ 36`: a minus sign
for a negative value, then the digits of the magnitude. -/
def FormatInt (i : Int) (base : Nat) : String :=
  if i < 0 then String.mk ('-' :: formatBits 64 i.natAbs base [])
  else String.mk (formatBits 64 i.natAbs base [])

/-! ## `generateCookie` -/

/-- Source: `generateCookie`.
`strconv.FormatInt(int64(md5.Sum([]byte(ip))[0]), 16)`. -/
def generateCookie (ip : String) : String :=
  FormatInt (Int.ofNat ((MD5.Sum (stringBytes ip)).getD 0 0)) 16

/-! ## Data model -/

/-- A Go `error` value, identified by its message; `Option Error` is a
possibly-nil `error`. -/
abbrev Error := String

deriving instance DecidableEq for Except

/-- The record `registry.Subnet`: the assignment stored under a node id. -/
structure Subnet where
  Minion : String
  Sub : String
deriving DecidableEq, Repr

/-- The type `net.IP`: a byte slice. -/
abbrev IP := List Nat

/-- The type `net.IPNet`: network address and mask. -/
structure IPNet where
  IP : IP
  Mask : List Nat
deriving DecidableEq, Repr

/-- The event kinds `registry.Added` and `registry.Deleted`. -/
inductive EventType where
  | Added
  | Deleted
deriving DecidableEq, Repr

/-- The record `registry.MinionEvent`. -/
structure MinionEvent where
  EvType : EventType
  Minion : String
deriving DecidableEq, Repr

/-- The record `registry.SubnetEvent`. -/
structure SubnetEvent where
  EvType : EventType
  Sub : Subnet
deriving DecidableEq, Repr

/-- Source: `ContainerNetwork`. -/
def ContainerNetwork : String := "10.1.0.0/16"

/-- Source: `ContainerSubnetLength`. -/
def ContainerSubnetLength : Nat := 8

/-- A call that leaves the controller, as recorded in the trace. -/
inductive Call where
  | CheckEtcdIsAlive (seconds : Nat)
  | InitMinions
  | InitSubnets
  | GetSubnets
  | GetMinions
  | GetSubnet (minion : String)
  | CreateSubnet (minion : String) (sub : Subnet)
  | DeleteSubnet (minion : String)
  | CreateMinion (minion : String) (ip : String)
  | WatchMinions (fromIndex : Nat)
  | WatchSubnets (fromIndex : Nat)
  | NewSubnetAllocator (network : String) (capacity : Nat) (inUse : List String)
  | GetNetwork
  | ReleaseNetwork (ipnet : IPNet)
  | LookupIP (host : String)
  | Command (argv : List String)
  | Sleep (seconds : Nat)
  | Go (routine : String)
deriving DecidableEq, Repr

/-! ## Collaborators

Functions returning `(value, error)` in Go follow the convention that the
value is nil exactly when the error is not; they are modelled with `Except`.
Functions returning only an `error` give `Option Error`. -/

/-- The interface `registry.SubnetRegistry`, over a registry state `ρ`.
Reads do not change the state; writes return the new state.  `elapse` is
what the other processes do to the registry while this one sleeps for one
poll interval. -/
structure RegistryOps (ρ : Type) where
  CheckEtcdIsAlive : ρ → Nat → Bool
  InitMinions : ρ → Option Error × ρ
  InitSubnets : ρ → Option Error × ρ
  GetSubnets : ρ → Except Error (List Subnet)
  GetMinions : ρ → Except Error (List String)
  GetSubnet : ρ → String → Except Error Subnet
  CreateSubnet : ρ → String → Subnet → Option Error × ρ
  DeleteSubnet : ρ → String → Option Error × ρ
  CreateMinion : ρ → String → String → Option Error × ρ
  elapse : ρ → ρ

/-- The operations of `netutils.SubnetAllocator`, over an allocator state `α`,
with `netutils.GenerateDefaultGateway`. -/
structure AllocatorOps (α : Type) where
  NewSubnetAllocator : String → Nat → List String → Except Error α
  GetNetwork : α → Except Error IPNet × α
  ReleaseNetwork : α → IPNet → Option Error × α
  GenerateDefaultGateway : IPNet → IP

/-- The functions of package `net` the controller uses. -/
structure NetOps where
  LookupIP : String → Except Error (List IP)
  ParseCIDR : String → Except Error (IP × IPNet)
  ipString : IP → String
  ipnetString : IPNet → String

/-- All collaborators.  `CombinedOutput os argv` runs the external command
`argv` to completion on the host state `os`; its error is nil exactly when
the command exits with status zero. -/
structure Env (ρ α ω : Type) where
  sm : RegistryOps ρ
  sna : AllocatorOps α
  net : NetOps
  CombinedOutput : ω → List String → Option Error × ω

/-! ## Controller state -/

/-- Source: `OvsController` (the channel `sig` has no content and is left
out).  `sm` is the state of the registry behind the interface value, `sna`
the allocator behind the pointer, nil until `StartMaster` sets it. -/
structure OvsController (ρ α : Type) where
  sm : ρ
  localIP : String
  localSub : Option Subnet
  hostName : String
  sna : Option α
deriving DecidableEq, Repr

/-- The controller, the host it runs on, and the calls made so far. -/
structure World (ρ α ω : Type) where
  oc : OvsController ρ α
  os : ω
  trace : List Call
deriving DecidableEq, Repr

/-- How a call ends: it returns a value, or it panics (nil dereference, index
out of range). -/
inductive Outcome (σ β : Type) where
  | ret (v : β) (s : σ)
  | panic (s : σ)
deriving DecidableEq, Repr

variable {ρ α ω : Type}

/-- Record a call in the trace. -/
def World.log (w : World ρ α ω) (c : Call) : World ρ α ω :=
  { w with trace := w.trace ++ [c] }

/-- Replace the registry state. -/
def World.setSm (w : World ρ α ω) (sm : ρ) : World ρ α ω :=
  { w with oc := { w.oc with sm := sm } }

/-- Replace the allocator. -/
def World.setSna (w : World ρ α ω) (sna : Option α) : World ρ α ω :=
  { w with oc := { w.oc with sna := sna } }

/-- The call `exec.Command(argv...).CombinedOutput()`, output dropped. -/
def command (E : Env ρ α ω) (argv : List String) (w : World ρ α ω) :
    Option Error × World ρ α ω :=
  let r := E.CombinedOutput w.os argv
  (r.1, { w with os := r.2, trace := w.trace ++ [Call.Command argv] })

/-! ## Flow programming -/

/-- Source: `OvsController.AddOFRules`. -/
def AddOFRules (E : Env ρ α ω) (minionip subnet : String) (w : World ρ α ω) : World ρ α ω :=
  let cookie := generateCookie minionip
  if minionip = w.oc.localIP then
    let iprule := "table=0,cookie=0x" ++ cookie ++ ",priority=200,ip,in_port=10,nw_dst="
      ++ subnet ++ ",actions=output:9"
    let arprule := "table=0,cookie=0x" ++ cookie ++ ",priority=200,arp,in_port=10,nw_dst="
      ++ subnet ++ ",actions=output:9"
    let w := (command E ["ovs-ofctl", "-O", "OpenFlow13", "add-flow", "br0", iprule] w).2
    (command E ["ovs-ofctl", "-O", "OpenFlow13", "add-flow", "br0", arprule] w).2
  else
    let iprule := "table=0,cookie=0x" ++ cookie ++ ",priority=200,ip,in_port=9,nw_dst="
      ++ subnet ++ ",actions=set_field:" ++ minionip ++ "->tun_dst,output:10"
    let arprule := "table=0,cookie=0x" ++ cookie ++ ",priority=200,arp,in_port=9,nw_dst="
      ++ subnet ++ ",actions=set_field:" ++ minionip ++ "->tun_dst,output:10"
    let w := (command E ["ovs-ofctl", "-O", "OpenFlow13", "add-flow", "br0", iprule] w).2
    (command E ["ovs-ofctl", "-O", "OpenFlow13", "add-flow", "br0", arprule] w).2

/-- Source: `OvsController.DelOFRules`. -/
def DelOFRules (E : Env ρ α ω) (minion : String) (w : World ρ α ω) : World ρ α ω :=
  let cookie := generateCookie minion
  if minion = w.oc.localIP then
    let iprule := "table=0,cookie=0x" ++ cookie ++ "/0xffffffff,ip,in_port=10"
    let arprule := "table=0,cookie=0x" ++ cookie ++ "/0xffffffff,arp,in_port=10"
    let w := (command E ["ovs-ofctl", "-O", "OpenFlow13", "del-flows", "br0", iprule] w).2
    (command E ["ovs-ofctl", "-O", "OpenFlow13", "del-flows", "br0", arprule] w).2
  else
    let iprule := "table=0,cookie=0x" ++ cookie ++ "/0xffffffff,ip,in_port=9"
    let arprule := "table=0,cookie=0x" ++ cookie ++ "/0xffffffff,arp,in_port=9"
    let w := (command E ["ovs-ofctl", "-O", "OpenFlow13", "del-flows", "br0", iprule] w).2
    (command E ["ovs-ofctl", "-O", "OpenFlow13", "del-flows", "br0", arprule] w).2

/-! ## Master role -/

/-- Source: `OvsController.AddNode`.  The error tested after `CreateSubnet`
is the variable `err` last assigned by `net.LookupIP`; the result of
`CreateSubnet` is dropped. -/
def AddNode (E : Env ρ α ω) (minion : String) (w : World ρ α ω) :
    Outcome (World ρ α ω) (Option Error) :=
  match w.oc.sna with
  | none => .panic (w.log .GetNetwork)
  | some a =>
    let r := E.sna.GetNetwork a
    let w := (w.log .GetNetwork).setSna (some r.2)
    match r.1 with
    | .error err => .ret (some err) w
    | .ok sn =>
      let w := w.log (.LookupIP minion)
      match E.net.LookupIP minion with
      | .error err => .ret (some err) w
      | .ok addrs =>
        let err : Option Error := none
        match addrs with
        | [] => .panic w
        | addr :: _ =>
          let minionIP := if E.net.ipString addr = "" then minion else E.net.ipString addr
          let sub : Subnet := { Minion := minionIP, Sub := E.net.ipnetString sn }
          let w := (w.log (.CreateSubnet minion sub)).setSm (E.sm.CreateSubnet w.oc.sm minion sub).2
          match err with
          | some e => .ret (some e) w
          | none => .ret none w

/-- The loop of `ServeExistingMinions` over the listed members. -/
def ServeExistingMinions.loop (E : Env ρ α ω) :
    List String → World ρ α ω → Outcome (World ρ α ω) (Option Error)
  | [], w => .ret none w
  | minion :: rest, w =>
    let w := w.log (.GetSubnet minion)
    match E.sm.GetSubnet w.oc.sm minion with
    | .ok _ => ServeExistingMinions.loop E rest w
    | .error _ =>
      match AddNode E minion w with
      | .ret (some err) w => .ret (some err) w
      | .ret none w => ServeExistingMinions.loop E rest w
      | .panic w => .panic w

/-- Source: `OvsController.ServeExistingMinions`. -/
def ServeExistingMinions (E : Env ρ α ω) (w : World ρ α ω) :
    Outcome (World ρ α ω) (Option Error) :=
  let w := w.log .GetMinions
  match E.sm.GetMinions w.oc.sm with
  | .error err => .ret (some err) w
  | .ok minions => ServeExistingMinions.loop E minions w

/-- Source: `OvsController.StartMaster`.  The second result of
`NewSubnetAllocator` is assigned to the blank identifier; on failure the
allocator pointer it returns is nil. -/
def StartMaster (E : Env ρ α ω) (sync : Bool) (w : World ρ α ω) :
    Outcome (World ρ α ω) (Option Error) :=
  let w := w.log (.CheckEtcdIsAlive 60)
  if !E.sm.CheckEtcdIsAlive w.oc.sm 60 then
    .ret (some "Etcd not reachable. Sync cluster check failed.") w
  else
    let w := if sync then (w.log .InitMinions).setSm (E.sm.InitMinions w.oc.sm).2 else w
    let r := E.sm.InitSubnets w.oc.sm
    let w := (w.log .InitSubnets).setSm r.2
    let fetched : World ρ α ω × Except Error (List String) :=
      match r.1 with
      | none => (w, .ok [])
      | some _ =>
        match E.sm.GetSubnets w.oc.sm with
        | .error err => (w.log .GetSubnets, .error err)
        | .ok subnets => (w.log .GetSubnets, .ok (subnets.map (fun sub => sub.Sub)))
    match fetched with
    | (w, .error err) => .ret (some err) w
    | (w, .ok subrange) =>
      let w := w.log (.NewSubnetAllocator ContainerNetwork ContainerSubnetLength subrange)
      let w := w.setSna
        (match E.sna.NewSubnetAllocator ContainerNetwork ContainerSubnetLength subrange with
         | .ok a => some a
         | .error _ => none)
      match ServeExistingMinions E w with
      | .panic w => .panic w
      | .ret _ w => .ret none (w.log (.Go "watchMinions"))

/-- Source: `OvsController.DeleteNode`. -/
def DeleteNode (E : Env ρ α ω) (minion : String) (w : World ρ α ω) :
    Outcome (World ρ α ω) (Option Error) :=
  let w := w.log (.GetSubnet minion)
  match E.sm.GetSubnet w.oc.sm minion with
  | .error err => .ret (some err) w
  | .ok sub =>
    match E.net.ParseCIDR sub.Sub with
    | .error err => .ret (some err) w
    | .ok (_, ipnet) =>
      match w.oc.sna with
      | none => .panic (w.log (.ReleaseNetwork ipnet))
      | some a =>
        let w := (w.log (.ReleaseNetwork ipnet)).setSna (some (E.sna.ReleaseNetwork a ipnet).2)
        let r := E.sm.DeleteSubnet w.oc.sm minion
        .ret r.1 ((w.log (.DeleteSubnet minion)).setSm r.2)

/-- The body of the `ev := <-minevent` case of `watchMinions`. -/
def watchMinions.handle (E : Env ρ α ω) (ev : MinionEvent) (w : World ρ α ω) :
    Outcome (World ρ α ω) Unit :=
  match ev.EvType with
  | .Added =>
    let w := w.log (.GetSubnet ev.Minion)
    match E.sm.GetSubnet w.oc.sm ev.Minion with
    | .error _ =>
      match AddNode E ev.Minion w with
      | .ret _ w => .ret () w
      | .panic w => .panic w
    | .ok _ => .ret () w
  | .Deleted =>
    match DeleteNode E ev.Minion w with
    | .ret _ w => .ret () w
    | .panic w => .panic w

/-- The select loop of `watchMinions` on the events received before `sig`. -/
def watchMinions.loop (E : Env ρ α ω) :
    List MinionEvent → World ρ α ω → Outcome (World ρ α ω) Unit
  | [], w => .ret () w
  | ev :: rest, w =>
    match watchMinions.handle E ev w with
    | .ret _ w => watchMinions.loop E rest w
    | .panic w => .panic w

/-- Source: `OvsController.watchMinions`, run on the events the registry
delivers before the controller is stopped. -/
def watchMinions (E : Env ρ α ω) (events : List MinionEvent) (w : World ρ α ω) :
    Outcome (World ρ α ω) Unit :=
  watchMinions.loop E events (w.log (.WatchMinions 0))

/-! ## Node role -/

/-- Source: `OvsController.syncWithMaster`. -/
def syncWithMaster (E : Env ρ α ω) (w : World ρ α ω) : Option Error × World ρ α ω :=
  let r := E.sm.CreateMinion w.oc.sm w.oc.hostName w.oc.localIP
  (r.1, (w.log (.CreateMinion w.oc.hostName w.oc.localIP)).setSm r.2)

/-- Source: `OvsController.initSelfSubnet`.  The loop has no exit but
success; `none` means the given number of polls all failed. -/
def initSelfSubnet (E : Env ρ α ω) : Nat → World ρ α ω → Option (World ρ α ω)
  | 0, _ => none
  | fuel + 1, w =>
    let w := w.log (.GetSubnet w.oc.hostName)
    match E.sm.GetSubnet w.oc.sm w.oc.hostName with
    | .error _ => initSelfSubnet E fuel ((w.log (.Sleep 2)).setSm (E.sm.elapse w.oc.sm))
    | .ok sub => some { w with oc := { w.oc with localSub := some sub } }

/-- Source: `OvsController.watchCluster`, the body of the
`ev := <-clusterEvent` case. -/
def watchCluster.handle (E : Env ρ α ω) (ev : SubnetEvent) (w : World ρ α ω) : World ρ α ω :=
  match ev.EvType with
  | .Added => AddOFRules E ev.Sub.Minion ev.Sub.Sub w
  | .Deleted => DelOFRules E ev.Sub.Minion w

/-- Source: `OvsController.watchCluster`, run on the events the registry
delivers before the controller is stopped. -/
def watchCluster (E : Env ρ α ω) (events : List SubnetEvent) (w : World ρ α ω) : World ρ α ω :=
  events.foldl (fun w ev => watchCluster.handle E ev w) (w.log (.WatchSubnets 0))

/-- The part of `StartNode` after the setup script: flush, list, install,
start the watcher.  A failed `GetSubnets` is logged and its nil result then
dereferenced. -/
def StartNode.install (E : Env ρ α ω) (w : World ρ α ω) :
    Outcome (World ρ α ω) (Option Error) :=
  let w := (command E ["ovs-ofctl", "-O", "OpenFlow13", "del-flows", "br0"] w).2
  let w := w.log .GetSubnets
  match E.sm.GetSubnets w.oc.sm with
  | .error _ => .panic w
  | .ok subnets =>
    let w := subnets.foldl (fun w s => AddOFRules E s.Minion s.Sub w) w
    .ret none (w.log (.Go "watchCluster"))

/-- The part of `StartNode` after `initSelfSubnet` has returned.  The `err`
returned at the end of the source is the one of `net.ParseCIDR`. -/
def StartNode.program (E : Env ρ α ω) (skipsetup : Bool) (w : World ρ α ω) :
    Outcome (World ρ α ω) (Option Error) :=
  match w.oc.localSub with
  | none => .panic w
  | some localSub =>
    match E.net.ParseCIDR localSub.Sub with
    | .error err => .ret (some err) w
    | .ok (_, ipnet) =>
      let r : Option Error × World ρ α ω :=
        if !skipsetup then
          command E ["openshift-sdn-simple-setup-node.sh",
            E.net.ipString (E.sna.GenerateDefaultGateway ipnet),
            E.net.ipnetString ipnet, ContainerNetwork] w
        else (none, w)
      match r with
      | (some err, w) => .ret (some err) w
      | (none, w) => StartNode.install E w

/-- Source: `OvsController.StartNode`.  `fuel` bounds the number of polls of
`initSelfSubnet`; `none` means they all failed and the call has not
returned. -/
def StartNode (E : Env ρ α ω) (fuel : Nat) (sync skipsetup : Bool) (w : World ρ α ω) :
    Option (Outcome (World ρ α ω) (Option Error)) :=
  let r : Option Error × World ρ α ω := if sync then syncWithMaster E w else (none, w)
  match r with
  | (some err, w) => some (.ret (some err) w)
  | (none, w) =>
    match initSelfSubnet E fuel w with
    | none => none
    | some w => some (StartNode.program E skipsetup w)

/-! ## A concrete environment

IPv4 instances of the `net` functions, the allocator and the registry as the
specification describes them, and a host whose bridge is a flow table. -/

/-- Split a character list at every occurrence of `sep`. -/
def fieldsOf (sep : Char) : List Char → List (List Char)
  | [] => [[]]
  | c :: cs =>
    if c = sep then [] :: fieldsOf sep cs
    else
      match fieldsOf sep cs with
      | [] => [[c]]
      | f :: fs => (c :: f) :: fs

/-- Read one to three decimal digits. -/
def readDec (cs : List Char) : Option Nat :=
  if cs = [] ∨ 3 < cs.length ∨ ¬ cs.all Char.isDigit then none
  else some (cs.foldl (fun v c => 10 * v + (c.toNat - '0'.toNat)) 0)

/-- Dotted-decimal IPv4 address to its four bytes. -/
def parseIPv4 (cs : List Char) : Option IP :=
  match (fieldsOf '.' cs).map readDec with
  | [some a, some b, some c, some d] =>
    if a < 256 ∧ b < 256 ∧ c < 256 ∧ d < 256 then some [a, b, c, d] else none
  | _ => none

/-- The function `net.CIDRMask(ones, 32)`. -/
def CIDRMask (ones : Nat) : List Nat :=
  (List.range 4).map fun i =>
    if 8 * (i + 1) ≤ ones then 255 else if ones ≤ 8 * i then 0 else 256 - 2 ^ (8 * (i + 1) - ones)

/-- The function `net.ParseCIDR` on IPv4 input `a.b.c.d/n`. -/
def ParseCIDR (s : String) : Except Error (IP × IPNet) :=
  match fieldsOf '/' s.data with
  | [addr, len] =>
    match parseIPv4 addr, readDec len with
    | some ip, some n =>
      if n ≤ 32 then
        .ok (ip, { IP := List.zipWith Nat.land ip (CIDRMask n), Mask := CIDRMask n })
      else .error ("invalid CIDR address: " ++ s)
    | _, _ => .error ("invalid CIDR address: " ++ s)
  | _ => .error ("invalid CIDR address: " ++ s)

/-- Decimal rendering of a natural number below `2 ^ 64`. -/
def itoa (n : Nat) : String := FormatInt (Int.ofNat n) 10

/-- The method `net.IP.String` on a four-byte address; the empty string for
anything else. -/
def ipString (ip : IP) : String :=
  match ip with
  | [a, b, c, d] => itoa a ++ "." ++ itoa b ++ "." ++ itoa c ++ "." ++ itoa d
  | _ => ""

/-- Number of one bits in a byte. -/
def popCount (b : Nat) : Nat := ((List.range 8).filter fun i => b.testBit i).length

/-- The method `net.IPNet.String` for a mask of leading ones. -/
def ipnetString (n : IPNet) : String :=
  ipString n.IP ++ "/" ++ itoa ((n.Mask.map popCount).sum)

/-- An IPv4 address as a 32-bit number. -/
def ipToNat (ip : IP) : Nat := ip.foldl (fun v b => 256 * v + b) 0

/-- A 32-bit number as an IPv4 address. -/
def natToIP (v : Nat) : IP := [v / 16777216 % 256, v / 65536 % 256, v / 256 % 256, v % 256]

/-- The resolver: an IPv4 literal resolves to itself, any other name through
the table `hosts`. -/
def LookupIP (hosts : List (String × List IP)) (host : String) : Except Error (List IP) :=
  match parseIPv4 host.data with
  | some ip => .ok [ip]
  | none =>
    match hosts.lookup host with
    | some (ip :: ips) => .ok (ip :: ips)
    | _ => .error ("lookup " ++ host ++ ": no such host")

/-- The `net` functions over the name table `hosts`. -/
def netOps (hosts : List (String × List IP)) : NetOps :=
  { LookupIP := LookupIP hosts, ParseCIDR := ParseCIDR, ipString := ipString,
    ipnetString := ipnetString }

/-- Modelled from the spec: the state of `netutils.SubnetAllocator` (its
source is not among the files), the parent network, the number of host bits
and one in-use bit per slot. -/
structure SubnetAllocator where
  network : IPNet
  hostBits : Nat
  used : List Bool
deriving DecidableEq, Repr

namespace SubnetAllocator

/-- Modelled from the spec: slot `N` maps to the CIDR
`parentNet + (N << hostPrefix)`. -/
def slotNet (sna : SubnetAllocator) (slot : Nat) : IPNet :=
  { IP := natToIP (ipToNat sna.network.IP + slot * 2 ^ sna.hostBits),
    Mask := CIDRMask (32 - sna.hostBits) }

/-- Modelled from the spec: the slot a CIDR names, if it is one of the
allocator's slots (inside the parent, aligned, of the slot size). -/
def slotOf (sna : SubnetAllocator) (n : IPNet) : Option Nat :=
  let off := ipToNat n.IP - ipToNat sna.network.IP
  let slot := off / 2 ^ sna.hostBits
  if ipToNat sna.network.IP ≤ ipToNat n.IP ∧ slot < sna.used.length ∧ sna.slotNet slot = n
  then some slot else none

/-- Modelled from the spec: mark the seeds used; "seeding with an invalid or
out-of-range CIDR fails construction with `SeedError`". -/
def seed (parse : String → Except Error (IP × IPNet)) :
    List String → SubnetAllocator → Except Error SubnetAllocator
  | [], sna => .ok sna
  | s :: rest, sna =>
    match parse s with
    | .error _ => .error ("SeedError: " ++ s)
    | .ok (_, n) =>
      match sna.slotOf n with
      | none => .error ("SeedError: " ++ s)
      | some slot => seed parse rest { sna with used := sna.used.set slot true }

/-- Modelled from the spec: `NewSubnetAllocator(network, hostBits, inUse)`, a
bit-set over `2 ^ hostBits` slots of the parent CIDR with the seeds marked. -/
def New (parse : String → Except Error (IP × IPNet)) (network : String) (hostBits : Nat)
    (inUse : List String) : Except Error SubnetAllocator :=
  match parse network with
  | .error err => .error err
  | .ok (_, n) =>
    seed parse inUse { network := n, hostBits := hostBits, used := List.replicate (2 ^ hostBits) false }

/-- Modelled from the spec: `allocate`, "returns the lowest-indexed unused slot
... marks it used", or `ExhaustedError`. -/
def GetNetwork (sna : SubnetAllocator) : Except Error IPNet × SubnetAllocator :=
  match sna.used.indexOf? false with
  | none => (.error "ExhaustedError", sna)
  | some slot => (.ok (sna.slotNet slot), { sna with used := sna.used.set slot true })

/-- Modelled from the spec: `release`, "marks slot unused if recognized;
silently ignores unknown inputs". -/
def ReleaseNetwork (sna : SubnetAllocator) (n : IPNet) : Option Error × SubnetAllocator :=
  match sna.slotOf n with
  | none => (none, sna)
  | some slot => (none, { sna with used := sna.used.set slot false })

/-- Modelled from the spec: `generateDefaultGateway`, "the first usable host in
the CIDR (network address + 1)". -/
def GenerateDefaultGateway (n : IPNet) : IP := natToIP (ipToNat n.IP + 1)

end SubnetAllocator

/-- The allocator operations over the IPv4 `ParseCIDR`. -/
def allocatorOps : AllocatorOps SubnetAllocator :=
  { NewSubnetAllocator := SubnetAllocator.New ParseCIDR,
    GetNetwork := SubnetAllocator.GetNetwork,
    ReleaseNetwork := SubnetAllocator.ReleaseNetwork,
    GenerateDefaultGateway := SubnetAllocator.GenerateDefaultGateway }

/-- Insert or overwrite: the first entry with key `k` is replaced in place;
without one the entry is appended. -/
def upsert {κ β : Type} [DecidableEq κ] (k : κ) (v : β) : List (κ × β) → List (κ × β)
  | [] => [(k, v)]
  | e :: t => if e.1 = k then (k, v) :: t else e :: upsert k v t

/-- Modelled from the spec: the state of the registry (its source is not
among the files), a map from node id to assignment and a membership map,
each absent until its namespace is created. -/
structure MapRegistry where
  alive : Bool
  minions : Option (List (String × String))
  subnets : Option (List (String × Subnet))
deriving DecidableEq, Repr

/-- Modelled from the spec: the registry operations on `MapRegistry`.
`getSubnet` fails exactly when the key is absent, `createSubnet` stores the
assignment ("overwrites permitted"), the `init` operations "create the
namespace directories if absent; return a recognizable `AlreadyExists` signal
if present".  `others` is what the other processes write during one poll
interval. -/
def mapRegistry (others : MapRegistry → MapRegistry) : RegistryOps MapRegistry :=
  { CheckEtcdIsAlive := fun r _ => r.alive
    InitMinions := fun r =>
      match r.minions with
      | some _ => (some "AlreadyExists", r)
      | none => (none, { r with minions := some [] })
    InitSubnets := fun r =>
      match r.subnets with
      | some _ => (some "AlreadyExists", r)
      | none => (none, { r with subnets := some [] })
    GetSubnets := fun r =>
      match r.subnets with
      | some l => .ok (l.map Prod.snd)
      | none => .error "NotFound"
    GetMinions := fun r =>
      match r.minions with
      | some l => .ok (l.map Prod.fst)
      | none => .error "NotFound"
    GetSubnet := fun r minion =>
      match (r.subnets.getD []).lookup minion with
      | some sub => .ok sub
      | none => .error "NotFound"
    CreateSubnet := fun r minion sub =>
      (none, { r with subnets := some (upsert minion sub (r.subnets.getD [])) })
    DeleteSubnet := fun r minion =>
      (none, { r with subnets := r.subnets.map (fun l => l.filter (fun e => e.1 ≠ minion)) })
    CreateMinion := fun r minion ip =>
      (none, { r with minions := some (upsert minion ip (r.minions.getD [])) })
    elapse := others }

/-- A registry whose `CreateSubnet` always fails and stores nothing. -/
def failingWrites {ρ : Type} (R : RegistryOps ρ) : RegistryOps ρ :=
  { R with CreateSubnet := fun r _ _ => (some "etcd: write failed", r) }

/-- What the flow table of `br0` needs to know of the flow-spec syntax:
`key` is the match of an `add-flow` spec (table, ethertype, in_port, nw_dst),
`selects d f` says whether the `del-flows` spec `d` selects the installed
flow `f`. -/
structure FlowSyntax (κ : Type) where
  key : String → κ
  selects : String → String → Bool

/-- Modelled from the spec: the bridge `br0` as seen through `ovs-ofctl`, a
flow table in which `add-flow` with an identical match overwrites the
existing entry and `del-flows` without a flow-spec removes every flow. -/
def ovsOfctl {κ : Type} [DecidableEq κ] (S : FlowSyntax κ) (table : List (κ × String))
    (argv : List String) : Option Error × List (κ × String) :=
  match argv with
  | ["ovs-ofctl", "-O", "OpenFlow13", "add-flow", "br0", flow] =>
    (none, upsert (S.key flow) flow table)
  | ["ovs-ofctl", "-O", "OpenFlow13", "del-flows", "br0"] => (none, [])
  | ["ovs-ofctl", "-O", "OpenFlow13", "del-flows", "br0", flow] =>
    (none, table.filter (fun e => !S.selects flow e.2))
  | _ => (some "exit status 1", table)

/-- The comma-separated fields of a flow-spec up to its actions. -/
def matchFields (flow : String) : List (List Char) :=
  (fieldsOf ',' flow.data).takeWhile (fun f => !"actions=".data.isPrefixOf f)

/-- A flow-spec syntax: the match is every field before the actions other
than cookie and priority; a `del-flows` spec selects the flows that carry its
cookie and all its other fields. -/
def flowSyntax : FlowSyntax (List String) :=
  { key := fun flow =>
      ((matchFields flow).filter
        (fun f => !"cookie=".data.isPrefixOf f && !"priority=".data.isPrefixOf f)).map String.mk
    selects := fun d flow =>
      (matchFields d).all fun f =>
        if "cookie=".data.isPrefixOf f then
          (matchFields flow).contains (f.takeWhile (fun c => c != '/'))
        else (matchFields flow).contains f }

/-- A host: the flow table of `br0` and whether the setup script succeeds. -/
structure Host where
  flows : List (List String × String)
  setupOk : Bool
deriving DecidableEq, Repr

/-- External commands on a `Host`: the setup script exits by `setupOk`,
anything else goes to `ovsOfctl`. -/
def hostExec (h : Host) (argv : List String) : Option Error × Host :=
  match argv with
  | "openshift-sdn-simple-setup-node.sh" :: _ =>
    (if h.setupOk then none else some "exit status 1", h)
  | _ => ((ovsOfctl flowSyntax h.flows argv).1, { h with flows := (ovsOfctl flowSyntax h.flows argv).2 })

/-- The concrete environment over the name table `hosts`. -/
def testEnv (hosts : List (String × List IP)) (others : MapRegistry → MapRegistry) :
    Env MapRegistry SubnetAllocator Host :=
  { sm := mapRegistry others, sna := allocatorOps, net := netOps hosts, CombinedOutput := hostExec }

/-- The value a call returned, if it returned. -/
def Outcome.result {σ β : Type} : Outcome σ β → Option β
  | .ret v _ => some v
  | .panic _ => none

/-- The state a call ended in. -/
def Outcome.state {σ β : Type} : Outcome σ β → σ
  | .ret _ s => s
  | .panic s => s

/-! ## The specification's flow-spec templates -/

/-- The flow-spec of the spec's "Add" templates, for the ethertype `eth`. -/
def addFlowSpec (localIP nodeIP subnet eth : String) : String :=
  if nodeIP = localIP then
    "table=0,cookie=0x" ++ generateCookie nodeIP ++ ",priority=200," ++ eth
      ++ ",in_port=10,nw_dst=" ++ subnet ++ ",actions=output:9"
  else
    "table=0,cookie=0x" ++ generateCookie nodeIP ++ ",priority=200," ++ eth
      ++ ",in_port=9,nw_dst=" ++ subnet ++ ",actions=set_field:" ++ nodeIP ++ "->tun_dst,output:10"

/-- The flow-spec of the spec's "Delete" template, for the ethertype `eth`. -/
def delFlowSpec (localIP nodeIP eth : String) : String :=
  "table=0,cookie=0x" ++ generateCookie nodeIP ++ "/0xffffffff," ++ eth ++ ",in_port="
    ++ (if nodeIP = localIP then "10" else "9")

/-- The command line `ovs-ofctl -O OpenFlow13 <verb> br0 <flow-spec>`. -/
def ofctl (verb flow : String) : List String :=
  ["ovs-ofctl", "-O", "OpenFlow13", verb, "br0", flow]

/-- The two commands the spec has `installRules(nodeIP, subnet)` issue on a
node with local IP `localIP`: the ip rule, then the arp rule. -/
def installCommands (localIP nodeIP subnet : String) : List Call :=
  [.Command (ofctl "add-flow" (addFlowSpec localIP nodeIP subnet "ip")),
   .Command (ofctl "add-flow" (addFlowSpec localIP nodeIP subnet "arp"))]

/-- The two commands the spec has `deleteRules(nodeIP)` issue. -/
def deleteCommands (localIP nodeIP : String) : List Call :=
  [.Command (ofctl "del-flows" (delFlowSpec localIP nodeIP "ip")),
   .Command (ofctl "del-flows" (delFlowSpec localIP nodeIP "arp"))]

/-- The lowercase hexadecimal digits. -/
def hexDigits : List Char := "0123456789abcdef".data

/-- Read a non-empty string of lowercase hexadecimal digits as a base-16
number; `none` for any other string. -/
def readHex (s : String) : Option Nat :=
  s.data.foldl
    (fun acc ch =>
      match acc with
      | none => none
      | some v => if ch ∈ hexDigits then some (16 * v + hexDigits.indexOf ch) else none)
    (if s.data = [] then none else some 0)

/-- What the spec says of a cookie `c` for the byte `b`: one or two lowercase
hexadecimal digits, no leading zero on a two-digit cookie, value `b`. -/
def IsHexOfByte (c : String) (b : Nat) : Prop :=
  (c.length = 1 ∨ c.length = 2) ∧ (∀ ch ∈ c.data, ch ∈ hexDigits) ∧
    (c.length = 2 → c.data.head? ≠ some '0') ∧ readHex c = some b

instance (c : String) (b : Nat) : Decidable (IsHexOfByte c b) := by
  unfold IsHexOfByte; infer_instance

/-- Whether the text `actions` occurs anywhere in a flow-spec. -/
def mentionsActions (flow : String) : Bool :=
  flow.data.tails.any (fun t => "actions".data.isPrefixOf t)

/-- Whether the registry holds an assignment for the node id. -/
def assigned (r : MapRegistry) (m : String) : Prop :=
  ((r.subnets.getD []).lookup m).isSome = true

/-- The state `AddNode` is in once the allocator has returned and left the
state `a2`, and the resolver has been called. -/
def afterLookup {ρ α ω : Type} (m : String) (a2 : α) (w : World ρ α ω) : World ρ α ω :=
  { oc := { w.oc with sna := some a2 }, os := w.os,
    trace := w.trace ++ [.GetNetwork, .LookupIP m] }

/-- The assignment `AddNode` builds from the first resolved address. -/
def assignment (N : NetOps) (m : String) (addr : IP) (sn : IPNet) : Subnet :=
  { Minion := if N.ipString addr = "" then m else N.ipString addr, Sub := N.ipnetString sn }

/-- The state `AddNode` is in once it has written the assignment `sub`. -/
def afterWrite {ρ α ω : Type} (E : Env ρ α ω) (m : String) (a2 : α) (sub : Subnet)
    (w : World ρ α ω) : World ρ α ω :=
  { oc := { w.oc with sna := some a2, sm := (E.sm.CreateSubnet w.oc.sm m sub).2 }
    os := w.os
    trace := w.trace ++ [.GetNetwork, .LookupIP m, .CreateSubnet m sub] }

/-- The command line of the node setup script for the subnet `ipnet`. -/
def setupCommand {ρ α ω : Type} (E : Env ρ α ω) (ipnet : IPNet) : List String :=
  ["openshift-sdn-simple-setup-node.sh", E.net.ipString (E.sna.GenerateDefaultGateway ipnet),
    E.net.ipnetString ipnet, "10.1.0.0/16"]

/-- The calls the spec has a node make after setup: flush `br0`, list the
assignments, install the rules of each in list order, start the watcher. -/
def programCalls (localIP : String) (subnets : List Subnet) : List Call :=
  [.Command ["ovs-ofctl", "-O", "OpenFlow13", "del-flows", "br0"], .GetSubnets]
    ++ subnets.flatMap (fun s => installCommands localIP s.Minion s.Sub)
    ++ [.Go "watchCluster"]

/-- The state in which `StartMaster` calls `ServeExistingMinions` when the
namespace existed, the listing gave `subnets` and the allocator could not be
built: no allocator, and the trace of the calls so far. -/
def seedFailed {ρ α ω : Type} (E : Env ρ α ω) (sync : Bool) (subnets : List Subnet) (w : World ρ α ω) :
    World ρ α ω :=
  { oc := { w.oc with
            sm := (E.sm.InitSubnets (if sync then (E.sm.InitMinions w.oc.sm).2 else w.oc.sm)).2
            sna := none }
    os := w.os
    trace := w.trace ++ [.CheckEtcdIsAlive 60] ++ (if sync then [.InitMinions] else [])
      ++ [.InitSubnets, .GetSubnets,
          .NewSubnetAllocator "10.1.0.0/16" 8 (subnets.map (fun sub => sub.Sub))] }

/-! ## Fixtures -/

/-- A name table with two nodes. -/
def hosts : List (String × List IP) :=
  [("nodeA", [[192, 168, 1, 5]]), ("nodeB", [[192, 168, 1, 6]])]

/-- The allocator over `10.1.0.0/16` with eight host bits and no slot used. -/
def freshAllocator : SubnetAllocator :=
  { network := { IP := [10, 1, 0, 0], Mask := [255, 255, 0, 0] }, hostBits := 8,
    used := List.replicate 256 false }

/-- A master controller on registry state `r` with allocator `sna`. -/
def masterWorld (r : MapRegistry) (sna : Option SubnetAllocator) :
    World MapRegistry SubnetAllocator Host :=
  { oc := { sm := r, localIP := "192.168.1.1", localSub := none, hostName := "master", sna := sna }
    os := { flows := [], setupOk := true }
    trace := [] }

/-- The controller of node `nodeA` on registry state `r`. -/
def nodeWorld (r : MapRegistry) (setupOk : Bool) : World MapRegistry SubnetAllocator Host :=
  { oc := { sm := r, localIP := "192.168.1.5", localSub := none, hostName := "nodeA", sna := none }
    os := { flows := [], setupOk := setupOk }
    trace := [] }

/-- A registry with members `nodeA`, `nodeB` and no subnet namespace yet. -/
def emptyRegistry : MapRegistry :=
  { alive := true, minions := some [("nodeA", "192.168.1.5"), ("nodeB", "192.168.1.6")],
    subnets := none }

/-- A registry in which both members have their assignment. -/
def servedRegistry : MapRegistry :=
  { alive := true, minions := some [("nodeA", "192.168.1.5"), ("nodeB", "192.168.1.6")],
    subnets := some [("nodeA", { Minion := "192.168.1.5", Sub := "10.1.0.0/24" }),
                     ("nodeB", { Minion := "192.168.1.6", Sub := "10.1.1.0/24" })] }

/-- A registry whose only assignment lies outside the container network. -/
def strayRegistry : MapRegistry :=
  { alive := true, minions := some [("nodeA", "192.168.1.5")],
    subnets := some [("nodeA", { Minion := "192.168.1.5", Sub := "10.2.0.0/24" })] }

end OvsSimple

/-! # Theorems -/

namespace OvsSimple

variable {ρ α ω κ : Type}

/-! ## `generateCookie` -/

theorem MD5.Sum_head (msg : List Nat) :
    ∃ b, b < 256 ∧ (MD5.Sum msg).head? = some b ∧ (MD5.Sum msg).getD 0 0 = b := by
  refine ⟨_, ?_, rfl, rfl⟩
  exact Nat.mod_lt _ (by decide)

theorem MD5.Sum_length (msg : List Nat) : (MD5.Sum msg).length = 16 := rfl

theorem FormatInt_byte : ∀ b, b < 256 → IsHexOfByte (FormatInt (Int.ofNat b) 16) b := by
  decide!

theorem generateCookie_eq (ip : String) :
    ∃ b, b < 256 ∧ (MD5.Sum (stringBytes ip)).head? = some b ∧
      generateCookie ip = FormatInt (Int.ofNat b) 16 := by
  obtain ⟨b, hb, hh, hg⟩ := MD5.Sum_head (stringBytes ip)
  exact ⟨b, hb, hh, by simp only [generateCookie, hg]⟩

/-- C3: for every string `ip`, `generateCookie ip` is the first byte `b` of
`MD5(ip)` rendered in lowercase hexadecimal: one or two characters among
`0-9a-f`, without sign or padding, whose base-16 value is `b`, so
`b < 256`; and equal inputs give equal cookies. -/
theorem generateCookie_is_hex_of_first_md5_byte (ip : String) :
    ∃ b, (MD5.Sum (stringBytes ip)).head? = some b ∧ b < 256 ∧
      generateCookie ip = FormatInt (Int.ofNat b) 16 ∧
      ((generateCookie ip).length = 1 ∨ (generateCookie ip).length = 2) ∧
      (∀ ch ∈ (generateCookie ip).data, ch ∈ hexDigits) ∧
      ((generateCookie ip).length = 2 → (generateCookie ip).data.head? ≠ some '0') ∧
      readHex (generateCookie ip) = some b ∧
      ∀ ip2, ip2 = ip → generateCookie ip2 = generateCookie ip := by
  obtain ⟨b, hb, hh, hg⟩ := generateCookie_eq ip
  have h := FormatInt_byte b hb
  rw [← hg] at h
  exact ⟨b, hh, hb, hg, h.1, h.2.1, h.2.2.1, h.2.2.2, fun ip2 e => by rw [e]⟩

/-- C3 at `"a"`, whose digest starts with the byte `0x0c`: the cookie is the
single digit `c`. -/
theorem generateCookie_is_hex_of_first_md5_byte_witness :
    generateCookie "a" = "c" ∧ (MD5.Sum (stringBytes "a")).head? = some 12 ∧
      readHex (generateCookie "a") = some 12 := by
  obtain ⟨b, hh, _, _, _, _, _, hr, _⟩ := generateCookie_is_hex_of_first_md5_byte "a"
  have hb : b = 12 := by
    have : (MD5.Sum (stringBytes "a")).head? = some 12 := by decide!
    rw [this] at hh
    exact (Option.some.inj hh).symm
  subst hb
  exact ⟨by decide!, hh, hr⟩

/-! ## Flow programming -/

theorem AddOFRules_eq (E : Env ρ α ω) (minionip subnet : String) (w : World ρ α ω) :
    AddOFRules E minionip subnet w =
      (command E (ofctl "add-flow" (addFlowSpec w.oc.localIP minionip subnet "arp"))
        (command E (ofctl "add-flow" (addFlowSpec w.oc.localIP minionip subnet "ip")) w).2).2 := by
  have e1 : ",priority=200,ip,in_port=10,nw_dst="
      = ",priority=200," ++ ("ip" ++ ",in_port=10,nw_dst=") := by decide
  have e2 : ",priority=200,arp,in_port=10,nw_dst="
      = ",priority=200," ++ ("arp" ++ ",in_port=10,nw_dst=") := by decide
  have e3 : ",priority=200,ip,in_port=9,nw_dst="
      = ",priority=200," ++ ("ip" ++ ",in_port=9,nw_dst=") := by decide
  have e4 : ",priority=200,arp,in_port=9,nw_dst="
      = ",priority=200," ++ ("arp" ++ ",in_port=9,nw_dst=") := by decide
  unfold AddOFRules addFlowSpec ofctl
  by_cases h : minionip = w.oc.localIP
  · simp only [h, if_true, command, e1, e2, String.append_assoc]
  · simp only [h, if_false, command, e3, e4, String.append_assoc]

theorem DelOFRules_eq (E : Env ρ α ω) (minion : String) (w : World ρ α ω) :
    DelOFRules E minion w =
      (command E (ofctl "del-flows" (delFlowSpec w.oc.localIP minion "arp"))
        (command E (ofctl "del-flows" (delFlowSpec w.oc.localIP minion "ip")) w).2).2 := by
  have e1 : "/0xffffffff,ip,in_port=10" = "/0xffffffff," ++ ("ip" ++ (",in_port=" ++ "10")) := by
    decide
  have e2 : "/0xffffffff,arp,in_port=10" = "/0xffffffff," ++ ("arp" ++ (",in_port=" ++ "10")) := by
    decide
  have e3 : "/0xffffffff,ip,in_port=9" = "/0xffffffff," ++ ("ip" ++ (",in_port=" ++ "9")) := by
    decide
  have e4 : "/0xffffffff,arp,in_port=9" = "/0xffffffff," ++ ("arp" ++ (",in_port=" ++ "9")) := by
    decide
  unfold DelOFRules delFlowSpec ofctl
  by_cases h : minion = w.oc.localIP
  · simp only [h, if_true, command, e1, e2, String.append_assoc]
  · simp only [h, if_false, command, e3, e4, String.append_assoc]

theorem AddOFRules_oc (E : Env ρ α ω) (nodeIP subnet : String) (w : World ρ α ω) :
    (AddOFRules E nodeIP subnet w).oc = w.oc := by
  rw [AddOFRules_eq]; rfl

theorem AddOFRules_trace (E : Env ρ α ω) (nodeIP subnet : String) (w : World ρ α ω) :
    (AddOFRules E nodeIP subnet w).trace = w.trace ++ installCommands w.oc.localIP nodeIP subnet := by
  rw [AddOFRules_eq]; simp [command, installCommands]

/-- C1: for every controller (local IP `L`) and all strings `nodeIP`,
`subnet`, `AddOFRules nodeIP subnet` issues exactly two commands,
`ovs-ofctl -O OpenFlow13 add-flow br0 <flow-spec>` for the ip rule and then
for the arp rule, with the flow-specs of the spec's templates (local
direction if `nodeIP = L`, remote direction otherwise, cookie
`generateCookie nodeIP`), and leaves the controller as it was. -/
theorem AddOFRules_issues_the_two_add_flow_commands (E : Env ρ α ω) (nodeIP subnet : String)
    (w : World ρ α ω) :
    (AddOFRules E nodeIP subnet w).trace =
        w.trace ++
          [Call.Command ["ovs-ofctl", "-O", "OpenFlow13", "add-flow", "br0",
              if nodeIP = w.oc.localIP then
                "table=0,cookie=0x" ++ generateCookie nodeIP ++ ",priority=200,ip,in_port=10,nw_dst="
                  ++ subnet ++ ",actions=output:9"
              else
                "table=0,cookie=0x" ++ generateCookie nodeIP ++ ",priority=200,ip,in_port=9,nw_dst="
                  ++ subnet ++ ",actions=set_field:" ++ nodeIP ++ "->tun_dst,output:10"],
           Call.Command ["ovs-ofctl", "-O", "OpenFlow13", "add-flow", "br0",
              if nodeIP = w.oc.localIP then
                "table=0,cookie=0x" ++ generateCookie nodeIP ++ ",priority=200,arp,in_port=10,nw_dst="
                  ++ subnet ++ ",actions=output:9"
              else
                "table=0,cookie=0x" ++ generateCookie nodeIP ++ ",priority=200,arp,in_port=9,nw_dst="
                  ++ subnet ++ ",actions=set_field:" ++ nodeIP ++ "->tun_dst,output:10"]] ∧
      (AddOFRules E nodeIP subnet w).trace = w.trace ++ installCommands w.oc.localIP nodeIP subnet ∧
      (AddOFRules E nodeIP subnet w).oc = w.oc := by
  refine ⟨?_, AddOFRules_trace E nodeIP subnet w, AddOFRules_oc E nodeIP subnet w⟩
  unfold AddOFRules
  by_cases h : nodeIP = w.oc.localIP
  · simp [h, command]
  · simp [h, command]

theorem delFlowSpec_no_actions :
    ∀ b, b < 256 → ∀ eth ∈ ["ip", "arp"], ∀ port ∈ ["10", "9"],
      mentionsActions ("table=0,cookie=0x" ++ FormatInt (Int.ofNat b) 16 ++ "/0xffffffff," ++ eth
        ++ ",in_port=" ++ port) = false := by
  decide!

/-- C2: for every controller (local IP `L`) and every string `nodeIP`,
`DelOFRules nodeIP` issues exactly two commands
`ovs-ofctl -O OpenFlow13 del-flows br0 <flow-spec>`, with flow-specs
`table=0,cookie=0x<c>/0xffffffff,ip,in_port=<p>` and then the same with `arp`,
where `c = generateCookie nodeIP` and `p` is 10 if `nodeIP = L` and 9
otherwise.  Neither flow-spec mentions actions, the two commands are a
function of `nodeIP` and `L` alone, and the controller is left as it was. -/
theorem DelOFRules_issues_the_two_del_flows_commands (E : Env ρ α ω) (nodeIP : String)
    (w : World ρ α ω) :
    (DelOFRules E nodeIP w).trace =
        w.trace ++
          [Call.Command ["ovs-ofctl", "-O", "OpenFlow13", "del-flows", "br0",
              "table=0,cookie=0x" ++ generateCookie nodeIP ++ "/0xffffffff,ip,in_port="
                ++ (if nodeIP = w.oc.localIP then "10" else "9")],
           Call.Command ["ovs-ofctl", "-O", "OpenFlow13", "del-flows", "br0",
              "table=0,cookie=0x" ++ generateCookie nodeIP ++ "/0xffffffff,arp,in_port="
                ++ (if nodeIP = w.oc.localIP then "10" else "9")]] ∧
      (DelOFRules E nodeIP w).trace = w.trace ++ deleteCommands w.oc.localIP nodeIP ∧
      (∀ eth ∈ ["ip", "arp"], mentionsActions (delFlowSpec w.oc.localIP nodeIP eth) = false) ∧
      (DelOFRules E nodeIP w).oc = w.oc := by
  refine ⟨?_, ?_, ?_, ?_⟩
  · unfold DelOFRules
    by_cases h : nodeIP = w.oc.localIP
    · simp [h, command, String.append_assoc]
    · simp [h, command, String.append_assoc]
  · rw [DelOFRules_eq]; simp [command, deleteCommands]
  · intro eth heth
    obtain ⟨b, hb, _, hc⟩ := generateCookie_eq nodeIP
    unfold delFlowSpec
    rw [hc]
    have hp : (if nodeIP = w.oc.localIP then "10" else "9") ∈ ["10", "9"] := by
      by_cases h : nodeIP = w.oc.localIP <;> simp [h]
    exact delFlowSpec_no_actions b hb eth heth _ hp
  · rw [DelOFRules_eq]; rfl

theorem upsert_upsert_same {β : Type} [DecidableEq κ] (k : κ) (a b : β) (t : List (κ × β)) :
    upsert k a (upsert k b t) = upsert k a t := by
  induction t with
  | nil => simp [upsert]
  | cons e t ih =>
    by_cases h : e.1 = k
    · simp [upsert, h]
    · simp [upsert, h, ih]

theorem upsert_upsert_other {β : Type} [DecidableEq κ] (k1 k2 : κ) (v1 v2 : β) (h : k1 ≠ k2)
    (t : List (κ × β)) :
    upsert k1 v1 (upsert k2 v2 (upsert k1 v1 t)) = upsert k2 v2 (upsert k1 v1 t) := by
  induction t with
  | nil => simp [upsert, h]
  | cons e t ih =>
    by_cases h1 : e.1 = k1
    · simp [upsert, h1, h]
    · by_cases h2 : e.1 = k2
      · simp [upsert, h1, h2, Ne.symm h, upsert_upsert_same]
      · simp [upsert, h1, h2, ih]

theorem upsert_pair_twice {β : Type} [DecidableEq κ] (k1 k2 : κ) (v1 v2 : β)
    (t : List (κ × β)) :
    upsert k2 v2 (upsert k1 v1 (upsert k2 v2 (upsert k1 v1 t))) = upsert k2 v2 (upsert k1 v1 t) := by
  by_cases h : k1 = k2
  · subst h
    rw [upsert_upsert_same k1 v1 v2, upsert_upsert_same k1 v1 v1]
  · rw [upsert_upsert_other k1 k2 v1 v2 h, upsert_upsert_same]

theorem ovsOfctl_add_flow [DecidableEq κ] (S : FlowSyntax κ) (t : List (κ × String))
    (flow : String) :
    ovsOfctl S t (ofctl "add-flow" flow) = (none, upsert (S.key flow) flow t) := by
  rfl

theorem AddOFRules_os [DecidableEq κ] (S : FlowSyntax κ) (R : RegistryOps ρ)
    (A : AllocatorOps α) (N : NetOps) (nodeIP subnet : String)
    (w : World ρ α (List (κ × String))) :
    (AddOFRules ⟨R, A, N, ovsOfctl S⟩ nodeIP subnet w).os =
      upsert (S.key (addFlowSpec w.oc.localIP nodeIP subnet "arp"))
        (addFlowSpec w.oc.localIP nodeIP subnet "arp")
        (upsert (S.key (addFlowSpec w.oc.localIP nodeIP subnet "ip"))
          (addFlowSpec w.oc.localIP nodeIP subnet "ip") w.os) := by
  rw [AddOFRules_eq]
  simp only [command, ovsOfctl_add_flow]

/-- C5: on a bridge whose flow table overwrites on `add-flow` with an
identical match, whatever the initial flow table, the local IP, the
assignment `(nodeIP, subnet)` and the way a flow-spec determines its match,
`watchCluster` handling the `Added` event of the assignment twice leaves the
same flow table as handling it once. -/
theorem watchCluster_duplicate_added_same_flow_table [DecidableEq κ] (S : FlowSyntax κ)
    (R : RegistryOps ρ) (A : AllocatorOps α) (N : NetOps) (nodeIP subnet : String)
    (w : World ρ α (List (κ × String))) :
    (watchCluster ⟨R, A, N, ovsOfctl S⟩
        [⟨.Added, ⟨nodeIP, subnet⟩⟩, ⟨.Added, ⟨nodeIP, subnet⟩⟩] w).os =
      (watchCluster ⟨R, A, N, ovsOfctl S⟩ [⟨.Added, ⟨nodeIP, subnet⟩⟩] w).os ∧
    (AddOFRules ⟨R, A, N, ovsOfctl S⟩ nodeIP subnet
        (AddOFRules ⟨R, A, N, ovsOfctl S⟩ nodeIP subnet w)).os =
      (AddOFRules ⟨R, A, N, ovsOfctl S⟩ nodeIP subnet w).os := by
  constructor
  · simp only [watchCluster, List.foldl_cons, List.foldl_nil, watchCluster.handle,
      AddOFRules_os, AddOFRules_oc]
    exact upsert_pair_twice _ _ _ _ _
  · simp only [AddOFRules_os, AddOFRules_oc]
    exact upsert_pair_twice _ _ _ _ _

/-! ## Master role -/

/-- C6 as stated fails: in the state `StartMaster` leaves when the allocator
could not be built (allocator nil, member watcher started), `nodeA` has an
assignment whose subnet parses, and `DeleteNode "nodeA"` panics at
`ReleaseNetwork`: it returns nothing, `DeleteSubnet` is not called and the
assignment stays in the registry. -/
theorem DeleteNode_nil_allocator_panics :
    (StartMaster (testEnv hosts id) false (masterWorld strayRegistry none)).result = some none ∧
    (StartMaster (testEnv hosts id) false (masterWorld strayRegistry none)).state.oc.sna = none ∧
    (mapRegistry id).GetSubnet
        (StartMaster (testEnv hosts id) false (masterWorld strayRegistry none)).state.oc.sm "nodeA" =
      .ok { Minion := "192.168.1.5", Sub := "10.2.0.0/24" } ∧
    ParseCIDR "10.2.0.0/24" =
      .ok ([10, 2, 0, 0], { IP := [10, 2, 0, 0], Mask := [255, 255, 255, 0] }) ∧
    DeleteNode (testEnv hosts id) "nodeA"
        (StartMaster (testEnv hosts id) false (masterWorld strayRegistry none)).state =
      .panic
        { oc := { sm := strayRegistry, localIP := "192.168.1.1", localSub := none,
                  hostName := "master", sna := none }
          os := { flows := [], setupOk := true }
          trace := [.CheckEtcdIsAlive 60, .InitSubnets, .GetSubnets,
            .NewSubnetAllocator "10.1.0.0/16" 8 ["10.2.0.0/24"],
            .GetMinions, .GetSubnet "nodeA", .Go "watchMinions", .GetSubnet "nodeA",
            .ReleaseNetwork { IP := [10, 2, 0, 0], Mask := [255, 255, 255, 0] }] } := by
  decide!

/-- C6, amended: `DeleteNode m` looks up the assignment of `m`; if the lookup
fails, or the recorded subnet does not parse as a CIDR, it returns that error
having made no other call and changed neither allocator nor registry.
Otherwise, on a controller whose allocator is set, it releases the network
parsed from the recorded subnet, then calls `DeleteSubnet m` and returns its
result; on a controller whose allocator is nil it panics at `ReleaseNetwork`,
`DeleteSubnet` is not called and the registry is unchanged. -/
theorem DeleteNode_releases_then_deletes_or_panics (E : Env ρ α ω) (m : String)
    (w : World ρ α ω) :
    (∀ err, E.sm.GetSubnet w.oc.sm m = .error err →
      DeleteNode E m w = .ret (some err) (w.log (.GetSubnet m))) ∧
    (∀ sub err, E.sm.GetSubnet w.oc.sm m = .ok sub → E.net.ParseCIDR sub.Sub = .error err →
      DeleteNode E m w = .ret (some err) (w.log (.GetSubnet m))) ∧
    (∀ sub ip ipnet a, E.sm.GetSubnet w.oc.sm m = .ok sub →
      E.net.ParseCIDR sub.Sub = .ok (ip, ipnet) → w.oc.sna = some a →
      DeleteNode E m w =
        .ret (E.sm.DeleteSubnet w.oc.sm m).1
          { oc := { w.oc with
                    sna := some (E.sna.ReleaseNetwork a ipnet).2
                    sm := (E.sm.DeleteSubnet w.oc.sm m).2 }
            os := w.os
            trace := w.trace ++ [.GetSubnet m, .ReleaseNetwork ipnet, .DeleteSubnet m] }) ∧
    (∀ sub ip ipnet, E.sm.GetSubnet w.oc.sm m = .ok sub →
      E.net.ParseCIDR sub.Sub = .ok (ip, ipnet) → w.oc.sna = none →
      DeleteNode E m w =
        .panic { w with trace := w.trace ++ [.GetSubnet m, .ReleaseNetwork ipnet] }) := by
  refine ⟨?_, ?_, ?_, ?_⟩
  · intro err h
    simp [DeleteNode, World.log, h]
  · intro sub err h hp
    simp [DeleteNode, World.log, h, hp]
  · intro sub ip ipnet a h hp ha
    simp [DeleteNode, World.log, World.setSna, World.setSm, h, hp, ha]
  · intro sub ip ipnet h hp ha
    simp [DeleteNode, World.log, h, hp, ha]

theorem AddNode_lookup_error (E : Env ρ α ω) (m : String) (w : World ρ α ω) (a a2 : α)
    (sn : IPNet) (err : Error) (hs : w.oc.sna = some a) (hg : E.sna.GetNetwork a = (.ok sn, a2))
    (hl : E.net.LookupIP m = .error err) :
    AddNode E m w = .ret (some err) (afterLookup m a2 w) := by
  simp [AddNode, World.log, World.setSna, afterLookup, hs, hg, hl]

theorem AddNode_lookup_ok (E : Env ρ α ω) (m : String) (w : World ρ α ω) (a a2 : α)
    (sn : IPNet) (addr : IP) (rest : List IP) (hs : w.oc.sna = some a)
    (hg : E.sna.GetNetwork a = (.ok sn, a2)) (hl : E.net.LookupIP m = .ok (addr :: rest)) :
    AddNode E m w = .ret none (afterWrite E m a2 (assignment E.net m addr sn) w) := by
  simp [AddNode, World.log, World.setSna, World.setSm, assignment, afterWrite, hs, hg, hl]

theorem lookup_upsert_self {β : Type} (k : String) (v : β) (t : List (String × β)) :
    (upsert k v t).lookup k = some v := by
  induction t with
  | nil => simp [upsert, List.lookup]
  | cons e t ih =>
    obtain ⟨k2, v2⟩ := e
    by_cases h : k2 = k
    · simp [upsert, h, List.lookup]
    · have h2 : (k == k2) = false := by simpa using Ne.symm h
      simp [upsert, h, List.lookup, h2, ih]

theorem lookup_upsert_other {β : Type} (k k2 : String) (v : β) (h : k2 ≠ k)
    (t : List (String × β)) :
    (upsert k v t).lookup k2 = t.lookup k2 := by
  induction t with
  | nil =>
    have h2 : (k2 == k) = false := by simpa using h
    simp [upsert, List.lookup, h2]
  | cons e t ih =>
    obtain ⟨k3, v3⟩ := e
    by_cases h3 : k3 = k
    · subst h3
      have h2 : (k2 == k3) = false := by simpa using h
      simp [upsert, List.lookup, h2]
    · by_cases h4 : k2 = k3
      · subst h4
        simp [upsert, h3, List.lookup]
      · have h2 : (k2 == k3) = false := by simpa using h4
        simp [upsert, h3, List.lookup, h2, ih]

theorem mapRegistry_GetSubnet_ok (o : MapRegistry → MapRegistry) (r : MapRegistry) (m : String) :
    assigned r m ↔ ∃ s, (mapRegistry o).GetSubnet r m = .ok s := by
  unfold assigned mapRegistry
  cases h : (r.subnets.getD []).lookup m <;> simp [h]

theorem AddNode_ret_none (E : Env ρ α ω) (m : String) (w w2 : World ρ α ω)
    (h : AddNode E m w = .ret none w2) :
    ∃ sub a2, w2 =
      { oc := { w.oc with sna := some a2, sm := (E.sm.CreateSubnet w.oc.sm m sub).2 }
        os := w.os
        trace := w.trace ++ [.GetNetwork, .LookupIP m, .CreateSubnet m sub] } := by
  unfold AddNode at h
  split at h
  · simp at h
  · rename_i a ha
    simp only at h
    split at h
    · simp at h
    · rename_i sn hg
      split at h
      · simp at h
      · rename_i addrs hl
        split at h
        · simp at h
        · rename_i addr rest
          simp only [Outcome.ret.injEq, true_and] at h
          refine ⟨{ Minion := if E.net.ipString addr = "" then m else E.net.ipString addr,
                    Sub := E.net.ipnetString sn }, (E.sna.GetNetwork a).2, ?_⟩
          rw [← h]
          simp [World.log, World.setSna, World.setSm]

theorem mapRegistry_AddNode (o : MapRegistry → MapRegistry) (A : AllocatorOps α) (N : NetOps)
    (X : ω → List String → Option Error × ω) (m : String) (w w2 : World MapRegistry α ω)
    (h : AddNode ⟨mapRegistry o, A, N, X⟩ m w = .ret none w2) :
    w2.oc.sm.minions = w.oc.sm.minions ∧ assigned w2.oc.sm m ∧
      ∀ k, assigned w.oc.sm k → assigned w2.oc.sm k := by
  obtain ⟨sub, a2, rfl⟩ := AddNode_ret_none _ m w w2 h
  refine ⟨rfl, ?_, ?_⟩
  · simp [assigned, mapRegistry, lookup_upsert_self]
  · intro k hk
    by_cases hkm : k = m
    · subst hkm
      simp [assigned, mapRegistry, lookup_upsert_self]
    · simpa [assigned, mapRegistry, lookup_upsert_other m k sub hkm] using hk

theorem mapRegistry_loop (o : MapRegistry → MapRegistry) (A : AllocatorOps α) (N : NetOps)
    (X : ω → List String → Option Error × ω) (ms : List String) :
    ∀ (w w2 : World MapRegistry α ω),
      ServeExistingMinions.loop ⟨mapRegistry o, A, N, X⟩ ms w = .ret none w2 →
      w2.oc.sm.minions = w.oc.sm.minions ∧ (∀ k, assigned w.oc.sm k → assigned w2.oc.sm k) ∧
        ∀ m ∈ ms, assigned w2.oc.sm m := by
  induction ms with
  | nil =>
    intro w w2 h
    simp only [ServeExistingMinions.loop, Outcome.ret.injEq, true_and] at h
    subst h
    exact ⟨rfl, fun _ hk => hk, by simp⟩
  | cons m rest ih =>
    intro w w2 h
    unfold ServeExistingMinions.loop at h
    simp only at h
    split at h
    · rename_i s hs
      obtain ⟨h1, h2, h3⟩ := ih _ _ h
      refine ⟨h1, h2, ?_⟩
      intro k hk
      rcases List.mem_cons.1 hk with rfl | hk
      · exact h2 _ ((mapRegistry_GetSubnet_ok o _ _).2 ⟨s, hs⟩)
      · exact h3 k hk
    · split at h
      · simp at h
      · rename_i w3 ha
        obtain ⟨h1, h2, h3⟩ := ih _ _ h
        obtain ⟨g1, g2, g3⟩ := mapRegistry_AddNode o A N X m _ w3 ha
        refine ⟨h1.trans g1, fun k hk => h2 k (g3 k hk), ?_⟩
        intro k hk
        rcases List.mem_cons.1 hk with rfl | hk
        · exact h2 _ g2
        · exact h3 k hk
      · simp at h

theorem loop_all_assigned (E : Env ρ α ω) (ms : List String) :
    ∀ w : World ρ α ω, (∀ m ∈ ms, ∃ s, E.sm.GetSubnet w.oc.sm m = .ok s) →
      ServeExistingMinions.loop E ms w =
        .ret none { w with trace := w.trace ++ ms.map Call.GetSubnet } := by
  induction ms with
  | nil => intro w _; simp [ServeExistingMinions.loop]
  | cons m rest ih =>
    intro w h
    obtain ⟨s, hs⟩ := h m (List.mem_cons_self _ _)
    unfold ServeExistingMinions.loop
    simp only [World.log, hs]
    have h2 := ih { oc := w.oc, os := w.os, trace := w.trace ++ [Call.GetSubnet m] }
      (fun k hk => h k (List.mem_cons_of_mem _ hk))
    rw [h2]
    simp

/-- C4: with the registry a map from node id to assignment, for every member
list, registry and allocator state: if a run of `ServeExistingMinions`
returned nil, a second run on the state it left returns nil, leaves
controller, registry and allocator as they were, and makes only the calls
`GetMinions` and one `GetSubnet` per member, so no allocation and no registry
write.  And on any registry, `watchMinions` handling an `Added` event for a
member that has an assignment makes the `GetSubnet` call and nothing else. -/
theorem master_bootstrap_idempotent (o : MapRegistry → MapRegistry) (A : AllocatorOps α)
    (N : NetOps) (X : ω → List String → Option Error × ω) (w w1 : World MapRegistry α ω)
    (h : ServeExistingMinions ⟨mapRegistry o, A, N, X⟩ w = .ret none w1) :
    (∃ ms, (mapRegistry o).GetMinions w1.oc.sm = .ok ms ∧
      ServeExistingMinions ⟨mapRegistry o, A, N, X⟩ w1 =
        .ret none { w1 with trace := w1.trace ++ Call.GetMinions :: ms.map Call.GetSubnet }) ∧
    (∀ (ρ2 α2 ω2 : Type) (E : Env ρ2 α2 ω2) (v : World ρ2 α2 ω2) (m : String) (s : Subnet),
      E.sm.GetSubnet v.oc.sm m = .ok s →
      watchMinions.handle E ⟨.Added, m⟩ v = .ret () (v.log (.GetSubnet m))) := by
  constructor
  · unfold ServeExistingMinions at h
    simp only at h
    split at h
    · simp at h
    · rename_i ms hm
      obtain ⟨h1, _, h3⟩ := mapRegistry_loop o A N X ms _ _ h
      have hm1 : (mapRegistry o).GetMinions w1.oc.sm = .ok ms := by
        simp only [World.log] at hm h1
        simp only [mapRegistry] at hm ⊢
        rw [h1]; exact hm
      refine ⟨ms, hm1, ?_⟩
      unfold ServeExistingMinions
      simp only [World.log, hm1]
      rw [loop_all_assigned _ ms _ (fun m hk => (mapRegistry_GetSubnet_ok o _ _).1 (h3 m hk))]
      simp
  · intro ρ2 α2 ω2 E v m s hs
    simp [watchMinions.handle, World.log, hs]

/-- C4 on the two-member registry without assignments: the first run
allocates for both members and returns nil; the second run only reads; and an
`Added` event for `nodeA`, which has its assignment, only reads. -/
theorem master_bootstrap_idempotent_witness :
    ServeExistingMinions (testEnv hosts id) (masterWorld emptyRegistry (some freshAllocator)) =
        .ret none
          { oc := { sm := servedRegistry, localIP := "192.168.1.1", localSub := none,
                    hostName := "master",
                    sna := (SubnetAllocator.New ParseCIDR "10.1.0.0/16" 8
                      ["10.1.0.0/24", "10.1.1.0/24"]).toOption }
            os := { flows := [], setupOk := true }
            trace := [.GetMinions, .GetSubnet "nodeA", .GetNetwork, .LookupIP "nodeA",
              .CreateSubnet "nodeA" { Minion := "192.168.1.5", Sub := "10.1.0.0/24" },
              .GetSubnet "nodeB", .GetNetwork, .LookupIP "nodeB",
              .CreateSubnet "nodeB" { Minion := "192.168.1.6", Sub := "10.1.1.0/24" }] } ∧
    ServeExistingMinions (testEnv hosts id)
        (ServeExistingMinions (testEnv hosts id)
          (masterWorld emptyRegistry (some freshAllocator))).state =
      .ret none
        { (ServeExistingMinions (testEnv hosts id)
            (masterWorld emptyRegistry (some freshAllocator))).state with
          trace := (ServeExistingMinions (testEnv hosts id)
              (masterWorld emptyRegistry (some freshAllocator))).state.trace
            ++ [.GetMinions, .GetSubnet "nodeA", .GetSubnet "nodeB"] } ∧
    watchMinions.handle (testEnv hosts id) ⟨.Added, "nodeA"⟩ (masterWorld servedRegistry none) =
      .ret () ((masterWorld servedRegistry none).log (.GetSubnet "nodeA")) := by
  have h := master_bootstrap_idempotent id allocatorOps (netOps hosts) hostExec
    (masterWorld emptyRegistry (some freshAllocator))
    (ServeExistingMinions (testEnv hosts id)
      (masterWorld emptyRegistry (some freshAllocator))).state (by decide!)
  refine ⟨by decide!, ?_, ?_⟩
  · obtain ⟨ms, h1, h2⟩ := h.1
    have hms : ms = ["nodeA", "nodeB"] := by
      have h3 : (mapRegistry id).GetMinions
          (ServeExistingMinions (testEnv hosts id)
            (masterWorld emptyRegistry (some freshAllocator))).state.oc.sm
          = .ok ["nodeA", "nodeB"] := by decide!
      rw [h3] at h1
      exact (Except.ok.inj h1).symm
    subst hms
    exact h2
  · exact h.2 MapRegistry SubnetAllocator Host (testEnv hosts id) (masterWorld servedRegistry none)
      "nodeA" { Minion := "192.168.1.5", Sub := "10.1.0.0/24" } (by decide!)

/-- C6, amended, on the served registry with its allocator: deleting `nodeA`
releases `10.1.0.0/24` and removes the key. -/
theorem DeleteNode_releases_then_deletes_or_panics_witness :
    DeleteNode (testEnv hosts id) "nodeA"
        (masterWorld servedRegistry (SubnetAllocator.New ParseCIDR "10.1.0.0/16" 8
          ["10.1.0.0/24", "10.1.1.0/24"]).toOption) =
      .ret none
        { oc := { sm := { servedRegistry with
                          subnets := some [("nodeB", { Minion := "192.168.1.6", Sub := "10.1.1.0/24" })] }
                  localIP := "192.168.1.1", localSub := none, hostName := "master"
                  sna := (SubnetAllocator.New ParseCIDR "10.1.0.0/16" 8 ["10.1.1.0/24"]).toOption }
          os := { flows := [], setupOk := true }
          trace := [.GetSubnet "nodeA",
            .ReleaseNetwork { IP := [10, 1, 0, 0], Mask := [255, 255, 255, 0] },
            .DeleteSubnet "nodeA"] } :=
  ((DeleteNode_releases_then_deletes_or_panics (testEnv hosts id) "nodeA"
      (masterWorld servedRegistry (SubnetAllocator.New ParseCIDR "10.1.0.0/16" 8
        ["10.1.0.0/24", "10.1.1.0/24"]).toOption)).2.2.1
    { Minion := "192.168.1.5", Sub := "10.1.0.0/24" } [10, 1, 0, 0]
    { IP := [10, 1, 0, 0], Mask := [255, 255, 255, 0] }
    ((SubnetAllocator.New ParseCIDR "10.1.0.0/16" 8 ["10.1.0.0/24", "10.1.1.0/24"]).toOption.getD
      freshAllocator)
    (by decide!) (by decide!) (by decide!)).trans (by decide!)

/-- C8 as stated fails: with an allocator that supplies `10.1.0.0/24` and a
name that does not resolve, `AddNode` returns the resolution error and writes
nothing. -/
theorem AddNode_unresolved_name_not_written :
    (allocatorOps.GetNetwork freshAllocator).1 = .ok { IP := [10, 1, 0, 0], Mask := [255, 255, 255, 0] } ∧
    (AddNode (testEnv [] id) "nodeA" (masterWorld emptyRegistry (some freshAllocator))).result =
      some (some "lookup nodeA: no such host") ∧
    (AddNode (testEnv [] id) "nodeA" (masterWorld emptyRegistry (some freshAllocator))).state.trace =
      [.GetNetwork, .LookupIP "nodeA"] ∧
    (AddNode (testEnv [] id) "nodeA" (masterWorld emptyRegistry (some freshAllocator))).state.oc.sm =
      emptyRegistry := by
  decide!

/-- C8, amended: once the allocator has supplied a subnet `sn`, `AddNode m`
resolves `m` before writing.  If resolution fails it returns the resolution
error and writes nothing.  If resolution gives a first address `addr`, it
writes `{nodeIP: addr.String(), or m when that string is empty, subnet: sn}`
with `CreateSubnet` and returns nil. -/
theorem AddNode_resolves_before_writing (E : Env ρ α ω) (m : String) (w : World ρ α ω)
    (a a2 : α) (sn : IPNet) (hs : w.oc.sna = some a) (hg : E.sna.GetNetwork a = (.ok sn, a2)) :
    (∀ err, E.net.LookupIP m = .error err →
      AddNode E m w = .ret (some err) (afterLookup m a2 w)) ∧
    (∀ addr rest, E.net.LookupIP m = .ok (addr :: rest) →
      AddNode E m w =
        .ret none
          (afterWrite E m a2
            { Minion := if E.net.ipString addr = "" then m else E.net.ipString addr,
              Sub := E.net.ipnetString sn } w)) :=
  ⟨fun err hl => AddNode_lookup_error E m w a a2 sn err hs hg hl,
   fun addr rest hl => AddNode_lookup_ok E m w a a2 sn addr rest hs hg hl⟩

/-- C8, amended, on an IP literal: `192.168.1.9` resolves to itself and is
recorded as the node IP. -/
theorem AddNode_resolves_before_writing_witness :
    AddNode (testEnv [] id) "192.168.1.9" (masterWorld emptyRegistry (some freshAllocator)) =
      .ret none
        (afterWrite (testEnv [] id) "192.168.1.9" (allocatorOps.GetNetwork freshAllocator).2
          { Minion := "192.168.1.9", Sub := "10.1.0.0/24" }
          (masterWorld emptyRegistry (some freshAllocator))) :=
  ((AddNode_resolves_before_writing (testEnv [] id) "192.168.1.9"
      (masterWorld emptyRegistry (some freshAllocator)) freshAllocator
      (allocatorOps.GetNetwork freshAllocator).2 { IP := [10, 1, 0, 0], Mask := [255, 255, 255, 0] }
      (by decide!) (by decide!)).2 [192, 168, 1, 9] [] (by decide!)).trans (by decide!)

/-- C10: whenever the allocator returns a subnet `sn` and the lookup of `m`
succeeds with first address `addr`, `AddNode m` makes exactly the calls
`GetNetwork`, `LookupIP m`, `CreateSubnet m {Minion, Sub: sn}` (one write, no
release, the node IP being `addr.String()`, or `m` when that is empty) and
returns nil, whatever `CreateSubnet` returns; the allocator keeps the state
in which the subnet is taken. -/
theorem AddNode_returns_nil_whatever_CreateSubnet_returns (E : Env ρ α ω) (m : String)
    (w : World ρ α ω) (a a2 : α) (sn : IPNet) (addr : IP) (rest : List IP)
    (hs : w.oc.sna = some a) (hg : E.sna.GetNetwork a = (.ok sn, a2))
    (hl : E.net.LookupIP m = .ok (addr :: rest)) :
    (AddNode E m w).result = some none ∧
    (AddNode E m w).state.trace =
      w.trace ++ [.GetNetwork, .LookupIP m,
        .CreateSubnet m { Minion := if E.net.ipString addr = "" then m else E.net.ipString addr,
                          Sub := E.net.ipnetString sn }] ∧
    (AddNode E m w).state.oc.sna = some a2 ∧
    (AddNode E m w).state.oc.sm =
      (E.sm.CreateSubnet w.oc.sm m
        { Minion := if E.net.ipString addr = "" then m else E.net.ipString addr,
          Sub := E.net.ipnetString sn }).2 := by
  rw [AddNode_lookup_ok E m w a a2 sn addr rest hs hg hl]
  exact ⟨rfl, rfl, rfl, rfl⟩

/-- C10 on a registry whose writes fail: `AddNode` still returns nil, the
registry has no assignment and the subnet stays allocated. -/
theorem AddNode_returns_nil_whatever_CreateSubnet_returns_witness :
    ((failingWrites (mapRegistry id)).CreateSubnet emptyRegistry "nodeA"
        { Minion := "192.168.1.5", Sub := "10.1.0.0/24" }).1 = some "etcd: write failed" ∧
    (AddNode ⟨failingWrites (mapRegistry id), allocatorOps, netOps hosts, hostExec⟩ "nodeA"
        (masterWorld emptyRegistry (some freshAllocator))).result = some none ∧
    (AddNode ⟨failingWrites (mapRegistry id), allocatorOps, netOps hosts, hostExec⟩ "nodeA"
        (masterWorld emptyRegistry (some freshAllocator))).state.trace =
      [.GetNetwork, .LookupIP "nodeA",
        .CreateSubnet "nodeA" { Minion := "192.168.1.5", Sub := "10.1.0.0/24" }] ∧
    (AddNode ⟨failingWrites (mapRegistry id), allocatorOps, netOps hosts, hostExec⟩ "nodeA"
        (masterWorld emptyRegistry (some freshAllocator))).state.oc.sm = emptyRegistry :=
  have h := AddNode_returns_nil_whatever_CreateSubnet_returns
    ⟨failingWrites (mapRegistry id), allocatorOps, netOps hosts, hostExec⟩ "nodeA"
    (masterWorld emptyRegistry (some freshAllocator)) freshAllocator
    (allocatorOps.GetNetwork freshAllocator).2 { IP := [10, 1, 0, 0], Mask := [255, 255, 255, 0] }
    [192, 168, 1, 5] [] (by decide!) (by decide!) (by decide!)
  ⟨by decide!, h.1, h.2.1.trans (by decide!), h.2.2.2.trans (by decide!)⟩

/-! ## Node role -/

theorem install_foldl (E : Env ρ α ω) (subnets : List Subnet) :
    ∀ w : World ρ α ω,
      (subnets.foldl (fun w s => AddOFRules E s.Minion s.Sub w) w).oc = w.oc ∧
      (subnets.foldl (fun w s => AddOFRules E s.Minion s.Sub w) w).trace =
        w.trace ++ subnets.flatMap (fun s => installCommands w.oc.localIP s.Minion s.Sub) := by
  induction subnets with
  | nil => intro w; simp
  | cons s rest ih =>
    intro w
    obtain ⟨h1, h2⟩ := ih (AddOFRules E s.Minion s.Sub w)
    rw [List.foldl_cons, h1, h2, AddOFRules_oc, AddOFRules_trace]
    simp

theorem install_after_setup (E : Env ρ α ω) (w : World ρ α ω) (subnets : List Subnet)
    (hget : E.sm.GetSubnets w.oc.sm = .ok subnets) :
    ∃ w3, StartNode.install E w = .ret none w3 ∧
      w3.oc = w.oc ∧ w3.trace = w.trace ++ programCalls w.oc.localIP subnets := by
  have h0 : ((command E ["ovs-ofctl", "-O", "OpenFlow13", "del-flows", "br0"] w).2.log
      .GetSubnets).oc = w.oc := rfl
  unfold StartNode.install
  simp only [h0, hget]
  refine ⟨_, rfl, ?_, ?_⟩
  · simp only [World.log]
    rw [(install_foldl E subnets _).1]
    rfl
  · simp only [World.log]
    rw [(install_foldl E subnets _).2]
    simp [command, World.log, programCalls]

theorem program_eq (E : Env ρ α ω) (skipsetup : Bool) (w1 : World ρ α ω) (sub : Subnet)
    (ip : IP) (ipnet : IPNet) (hsub : w1.oc.localSub = some sub)
    (hparse : E.net.ParseCIDR sub.Sub = .ok (ip, ipnet)) (r : Option Error × World ρ α ω)
    (hr : (if !skipsetup then command E (setupCommand E ipnet) w1 else (none, w1)) = r) :
    StartNode.program E skipsetup w1 =
      match r with
      | (some err, w) => .ret (some err) w
      | (none, w) => StartNode.install E w := by
  unfold StartNode.program
  simp only [hsub, hparse]
  have hr2 := hr
  simp only [setupCommand] at hr2
  simp only [ContainerNetwork, hr2]
  obtain ⟨e, w⟩ := r
  cases e <;> rfl

/-- C7: let `StartNode sync skipsetup` have registered (or skipped
registration), let `initSelfSubnet` have returned in state `w1` with the
assignment `sub` latched, and let `sub.Sub` parse to the network `ipnet`.
With `skipsetup` true the setup script is not invoked.  With `skipsetup`
false it is invoked, as
`(gateway of ipnet, ipnet, "10.1.0.0/16")`; if it fails, `StartNode` returns
that error and the setup command is the only call made after `w1`: no
`ovs-ofctl` command and no watcher.  In the other cases, when `GetSubnets`
returns `subnets`, `StartNode` returns nil and the calls after `w1` (and
after the setup command) are exactly: `del-flows br0`, `GetSubnets`, the two
`add-flow` commands of `AddOFRules` for each assignment in list order, and
the start of `watchCluster`. -/
theorem StartNode_setup_flush_install (E : Env ρ α ω) (fuel : Nat) (sync skipsetup : Bool)
    (w w0 w1 : World ρ α ω) (sub : Subnet) (ip : IP) (ipnet : IPNet)
    (hreg : (if sync then syncWithMaster E w else (none, w)) = (none, w0))
    (hinit : initSelfSubnet E fuel w0 = some w1)
    (hsub : w1.oc.localSub = some sub)
    (hparse : E.net.ParseCIDR sub.Sub = .ok (ip, ipnet)) :
    (skipsetup = true → ∀ subnets, E.sm.GetSubnets w1.oc.sm = .ok subnets →
      ∃ w3, StartNode E fuel sync skipsetup w = some (.ret none w3) ∧ w3.oc = w1.oc ∧
        w3.trace = w1.trace ++ programCalls w1.oc.localIP subnets) ∧
    (skipsetup = false →
      (∀ err, (E.CombinedOutput w1.os (setupCommand E ipnet)).1 = some err →
        ∃ w2, StartNode E fuel sync skipsetup w = some (.ret (some err) w2) ∧ w2.oc = w1.oc ∧
          w2.trace = w1.trace ++ [.Command (setupCommand E ipnet)]) ∧
      ((E.CombinedOutput w1.os (setupCommand E ipnet)).1 = none →
        ∀ subnets, E.sm.GetSubnets w1.oc.sm = .ok subnets →
        ∃ w3, StartNode E fuel sync skipsetup w = some (.ret none w3) ∧ w3.oc = w1.oc ∧
          w3.trace = w1.trace ++
            .Command (setupCommand E ipnet) :: programCalls w1.oc.localIP subnets)) := by
  have hstart : StartNode E fuel sync skipsetup w = some (StartNode.program E skipsetup w1) := by
    unfold StartNode
    simp only [hreg, hinit]
  rw [hstart]
  refine ⟨?_, ?_⟩
  · intro hskip subnets hget
    subst hskip
    obtain ⟨w3, h3, hoc, htr⟩ := install_after_setup E w1 subnets hget
    refine ⟨w3, ?_, hoc, htr⟩
    rw [program_eq E true w1 sub ip ipnet hsub hparse (none, w1) rfl]
    exact congrArg some h3
  · intro hskip
    subst hskip
    refine ⟨?_, ?_⟩
    · intro err herr
      refine ⟨(command E (setupCommand E ipnet) w1).2, ?_, rfl, rfl⟩
      rw [program_eq E false w1 sub ip ipnet hsub hparse
        (some err, (command E (setupCommand E ipnet) w1).2) (by rw [← herr]; rfl)]
    · intro hok subnets hget
      obtain ⟨w3, h3, hoc, htr⟩ :=
        install_after_setup E (command E (setupCommand E ipnet) w1).2 subnets hget
      refine ⟨w3, ?_, hoc, ?_⟩
      · rw [program_eq E false w1 sub ip ipnet hsub hparse
          (none, (command E (setupCommand E ipnet) w1).2) (by rw [← hok]; rfl)]
        exact congrArg some h3
      · rw [htr]
        simp [command]

/-- C7 on `nodeA` with both assignments in the registry: with a setup script
that succeeds, the setup command, the flush, then the rules of `nodeA`
(local) and `nodeB` (remote); with one that fails, nothing after the setup
command. -/
theorem StartNode_setup_flush_install_witness :
    ((StartNode (testEnv hosts id) 1 true false (nodeWorld servedRegistry true)).getD
        (.panic (nodeWorld servedRegistry true))).result = some none ∧
    ((StartNode (testEnv hosts id) 1 true false (nodeWorld servedRegistry true)).getD
        (.panic (nodeWorld servedRegistry true))).state.trace =
      [.CreateMinion "nodeA" "192.168.1.5", .GetSubnet "nodeA",
       .Command ["openshift-sdn-simple-setup-node.sh", "10.1.0.1", "10.1.0.0/24", "10.1.0.0/16"],
       .Command ["ovs-ofctl", "-O", "OpenFlow13", "del-flows", "br0"],
       .GetSubnets,
       .Command ["ovs-ofctl", "-O", "OpenFlow13", "add-flow", "br0",
         "table=0,cookie=0x2e,priority=200,ip,in_port=10,nw_dst=10.1.0.0/24,actions=output:9"],
       .Command ["ovs-ofctl", "-O", "OpenFlow13", "add-flow", "br0",
         "table=0,cookie=0x2e,priority=200,arp,in_port=10,nw_dst=10.1.0.0/24,actions=output:9"],
       .Command ["ovs-ofctl", "-O", "OpenFlow13", "add-flow", "br0",
         "table=0,cookie=0x42,priority=200,ip,in_port=9,nw_dst=10.1.1.0/24,actions=set_field:192.168.1.6->tun_dst,output:10"],
       .Command ["ovs-ofctl", "-O", "OpenFlow13", "add-flow", "br0",
         "table=0,cookie=0x42,priority=200,arp,in_port=9,nw_dst=10.1.1.0/24,actions=set_field:192.168.1.6->tun_dst,output:10"],
       .Go "watchCluster"] ∧
    ((StartNode (testEnv hosts id) 1 true false (nodeWorld servedRegistry false)).getD
        (.panic (nodeWorld servedRegistry false))).result = some (some "exit status 1") ∧
    ((StartNode (testEnv hosts id) 1 true false (nodeWorld servedRegistry false)).getD
        (.panic (nodeWorld servedRegistry false))).state.trace =
      [.CreateMinion "nodeA" "192.168.1.5", .GetSubnet "nodeA",
       .Command ["openshift-sdn-simple-setup-node.sh", "10.1.0.1", "10.1.0.0/24", "10.1.0.0/16"]] := by
  obtain ⟨w3, h3, _, ht3⟩ :=
    (StartNode_setup_flush_install (testEnv hosts id) 1 true false
      (nodeWorld servedRegistry true)
      (syncWithMaster (testEnv hosts id) (nodeWorld servedRegistry true)).2
      ((initSelfSubnet (testEnv hosts id) 1
        (syncWithMaster (testEnv hosts id) (nodeWorld servedRegistry true)).2).getD
        (nodeWorld servedRegistry true))
      { Minion := "192.168.1.5", Sub := "10.1.0.0/24" } [10, 1, 0, 0]
      { IP := [10, 1, 0, 0], Mask := [255, 255, 255, 0] }
      (by decide!) (by decide!) (by decide!) (by decide!)).2 rfl |>.2 (by decide!)
      [{ Minion := "192.168.1.5", Sub := "10.1.0.0/24" },
       { Minion := "192.168.1.6", Sub := "10.1.1.0/24" }] (by decide!)
  obtain ⟨w2, h2, _, ht2⟩ :=
    (StartNode_setup_flush_install (testEnv hosts id) 1 true false
      (nodeWorld servedRegistry false)
      (syncWithMaster (testEnv hosts id) (nodeWorld servedRegistry false)).2
      ((initSelfSubnet (testEnv hosts id) 1
        (syncWithMaster (testEnv hosts id) (nodeWorld servedRegistry false)).2).getD
        (nodeWorld servedRegistry false))
      { Minion := "192.168.1.5", Sub := "10.1.0.0/24" } [10, 1, 0, 0]
      { IP := [10, 1, 0, 0], Mask := [255, 255, 255, 0] }
      (by decide!) (by decide!) (by decide!) (by decide!)).2 rfl |>.1 "exit status 1"
      (by decide!)
  rw [h3, h2]
  exact ⟨rfl, ht3.trans (by decide!), rfl, ht2.trans (by decide!)⟩

/-- C9 as stated fails: the registry already has the subnet namespace, its
one assignment `10.2.0.0/24` lies outside `10.1.0.0/16` so that
`NewSubnetAllocator` fails, and `StartMaster` returns nil, having gone on to
list the members and to start the member watcher, with a nil allocator. -/
theorem StartMaster_seed_failure_not_fatal :
    ((mapRegistry id).InitSubnets strayRegistry).1 = some "AlreadyExists" ∧
    allocatorOps.NewSubnetAllocator "10.1.0.0/16" 8 ["10.2.0.0/24"] =
      .error "SeedError: 10.2.0.0/24" ∧
    (StartMaster (testEnv hosts id) false (masterWorld strayRegistry none)).result = some none ∧
    (StartMaster (testEnv hosts id) false (masterWorld strayRegistry none)).state.trace =
      [.CheckEtcdIsAlive 60, .InitSubnets, .GetSubnets,
       .NewSubnetAllocator "10.1.0.0/16" 8 ["10.2.0.0/24"],
       .GetMinions, .GetSubnet "nodeA", .Go "watchMinions"] ∧
    (StartMaster (testEnv hosts id) false (masterWorld strayRegistry none)).state.oc.sna = none := by
  decide!

/-- C9, amended: when the registry is reachable, `InitSubnets` reports that
the namespace exists, `GetSubnets` lists `subnets` and
`NewSubnetAllocator("10.1.0.0/16", 8, seeds)` fails, `StartMaster` drops that
error and leaves the allocator nil; it goes on to `ServeExistingMinions`,
and whenever that call returns, with or without an error, `StartMaster`
starts the member watcher and returns nil.  It never returns a non-nil
error. -/
theorem StartMaster_drops_allocator_error (E : Env ρ α ω) (sync : Bool) (w : World ρ α ω)
    (subnets : List Subnet) (e0 e1 : Error)
    (halive : E.sm.CheckEtcdIsAlive w.oc.sm 60 = true)
    (hinit : (E.sm.InitSubnets (if sync then (E.sm.InitMinions w.oc.sm).2 else w.oc.sm)).1
      = some e0)
    (hget : E.sm.GetSubnets
      (E.sm.InitSubnets (if sync then (E.sm.InitMinions w.oc.sm).2 else w.oc.sm)).2 = .ok subnets)
    (hnew : E.sna.NewSubnetAllocator "10.1.0.0/16" 8 (subnets.map (fun sub => sub.Sub))
      = .error e1) :
    (∀ r s, ServeExistingMinions E (seedFailed E sync subnets w) = .ret r s →
      StartMaster E sync w = .ret none (s.log (.Go "watchMinions"))) ∧
    (∀ s, ServeExistingMinions E (seedFailed E sync subnets w) = .panic s →
      StartMaster E sync w = .panic s) ∧
    (∀ err s, StartMaster E sync w ≠ .ret (some err) s) := by
  have key : StartMaster E sync w =
      match ServeExistingMinions E (seedFailed E sync subnets w) with
      | .panic s => .panic s
      | .ret _ s => .ret none (s.log (.Go "watchMinions")) := by
    unfold StartMaster
    cases sync
    · simp only [Bool.false_eq_true, if_false] at hinit hget
      simp [World.log, World.setSm, World.setSna, halive, hinit, hget, hnew, seedFailed,
        ContainerNetwork, ContainerSubnetLength]
    · simp only [if_true] at hinit hget
      simp [World.log, World.setSm, World.setSna, halive, hinit, hget, hnew, seedFailed,
        ContainerNetwork, ContainerSubnetLength]
  refine ⟨?_, ?_, ?_⟩
  · intro r s h
    rw [key, h]
  · intro s h
    rw [key, h]
  · intro err s
    rw [key]
    cases ServeExistingMinions E (seedFailed E sync subnets w) <;> simp

/-- C9, amended, on the registry with the stray assignment. -/
theorem StartMaster_drops_allocator_error_witness :
    StartMaster (testEnv hosts id) false (masterWorld strayRegistry none) =
      .ret none
        { oc := { sm := strayRegistry, localIP := "192.168.1.1", localSub := none,
                  hostName := "master", sna := none }
          os := { flows := [], setupOk := true }
          trace := [.CheckEtcdIsAlive 60, .InitSubnets, .GetSubnets,
            .NewSubnetAllocator "10.1.0.0/16" 8 ["10.2.0.0/24"],
            .GetMinions, .GetSubnet "nodeA", .Go "watchMinions"] } :=
  ((StartMaster_drops_allocator_error (testEnv hosts id) false (masterWorld strayRegistry none)
      [{ Minion := "192.168.1.5", Sub := "10.2.0.0/24" }] "AlreadyExists" "SeedError: 10.2.0.0/24"
      (by decide!) (by decide!) (by decide!) (by decide!)).1 none
    (ServeExistingMinions (testEnv hosts id)
      (seedFailed (testEnv hosts id) false [{ Minion := "192.168.1.5", Sub := "10.2.0.0/24" }]
        (masterWorld strayRegistry none))).state (by decide!)).trans (by decide!)

end OvsSimple
